import Mathlib

/-!
Verification model of the `multiagentsystem` repository: a conversational
multi-agent assistant (news/search, weather, email/calendar, grocery).
The Python sources are shallowly embedded: each agent's per-turn decision
logic becomes a pure Lean function, with every external effect (LLM calls,
HTTP search providers, the Gmail/Calendar adapter) passed in as an explicit
oracle argument and every adapter call recorded in an output trace.
Strings are manipulated through char-list helpers that mirror the Python
string operations used by the sources (`in` substring tests, `split`,
`strip`, `lower`, `title`, `re` word-boundary matching).  All helpers are
structurally recursive so that concrete runs reduce inside the kernel.
-/

namespace MAS

/-! ## String helpers mirroring Python string operations -/

/-- Python word character (`\w` over the ASCII inputs used here). -/
def isWordChar (c : Char) : Bool := c.isAlphanum || c = '_'

/-- Substring test on char lists: does `pat` occur inside `s`?
Mirrors Python's `pat in s`. An empty pattern matches. -/
def listContains (s pat : List Char) : Bool :=
  match s with
  | [] => pat.isEmpty
  | _ :: rest => pat.isPrefixOf s || listContains rest pat

/-- `pat in s` for strings (Python substring containment). -/
def strContains (s pat : String) : Bool := listContains s.data pat.data

/-- Python `any(word in text for word in words)`. -/
def containsAny (text : String) (words : List String) : Bool :=
  words.any (fun w => strContains text w)

/-- Lowercase a string (Python `str.lower` over ASCII). -/
def pyLower (s : String) : String := ⟨s.data.map Char.toLower⟩

def isSpaceChar (c : Char) : Bool := c.isWhitespace

/-- Python `str.strip()`: drop whitespace from both ends. -/
def pyStrip (s : String) : String :=
  ⟨((s.data.dropWhile isSpaceChar).reverse.dropWhile isSpaceChar).reverse⟩

/-- Core splitter for `s.split(sep)`, non-empty `sep`.  `skip` counts
characters of an already recognised separator occurrence that remain to be
consumed, `cur` is the current fragment accumulated in reverse. -/
def splitCore (sep : List Char) : Nat → List Char → List Char → List (List Char)
  | 0, cur, [] => [cur.reverse]
  | 0, cur, c :: rest =>
    if sep.isPrefixOf (c :: rest) then
      cur.reverse :: splitCore sep (sep.length - 1) [] rest
    else
      splitCore sep 0 (c :: cur) rest
  | _ + 1, cur, [] => [cur.reverse]
  | k + 1, cur, _ :: rest => splitCore sep k cur rest

/-- Python `s.split(sep)` for a non-empty string separator: splits on every
occurrence, keeping empty fragments. -/
def pySplit (s sep : String) : List String :=
  if sep.data.isEmpty then [s]
  else (splitCore sep.data 0 [] s.data).map (fun l => ⟨l⟩)

/-- Python `s.split()`: split on whitespace runs, discarding empties. -/
def pySplitWs (s : String) : List String :=
  ((s.data.splitOnP isSpaceChar).map (fun l => String.mk l)).filter (fun w => w ≠ "")

/-- Python `len(s)` (character count). -/
def pyLen (s : String) : Nat := s.data.length

/-- Python `str.title()`: uppercase every letter that follows a
non-alphabetic character, lowercase the other letters. -/
def pyTitleAux : Bool → List Char → List Char
  | _, [] => []
  | prevAlpha, c :: rest =>
    if c.isAlpha then
      (if prevAlpha then c.toLower else c.toUpper) :: pyTitleAux true rest
    else
      c :: pyTitleAux false rest

def pyTitle (s : String) : String := ⟨pyTitleAux false s.data⟩

/-- Python `s.replace(c, "")` for one character: drop every occurrence. -/
def dropChar (c : Char) (s : String) : String := ⟨s.data.filter (· ≠ c)⟩

/-- Value of a decimal digit list read as a natural number. -/
def digitsToNat (l : List Char) : Nat :=
  l.foldl (fun n c => 10 * n + (c.toNat - '0'.toNat)) 0

/-- A `\b` word boundary holds next to this optional neighbouring char. -/
def boundaryOk : Option Char → Bool
  | none => true
  | some p => !isWordChar p

/-- Core of `re.sub(r'\b<pat>\b', '', s)` for a fixed phrase pattern: scan
left to right, removing every occurrence of `pat` delimited by word
boundaries. `prev` is the character just before the scan position, `skip`
counts remaining characters of a recognised occurrence being dropped. -/
def subBoundCore (pat : List Char) : Nat → Option Char → List Char → List Char
  | _, _, [] => []
  | k + 1, _, c :: rest => subBoundCore pat k (some c) rest
  | 0, prev, c :: rest =>
    if pat.isPrefixOf (c :: rest) && boundaryOk prev &&
        boundaryOk ((c :: rest).drop pat.length).head? then
      subBoundCore pat (pat.length - 1) (some c) rest
    else
      c :: subBoundCore pat 0 (some c) rest

/-- `re.sub(r'\b<pat>\b', '', s)` for the non-empty fixed phrases used by
the grocery item extractor. -/
def subBound (pat : String) (s : String) : String :=
  ⟨subBoundCore pat.data 0 none s.data⟩

/-- First integer token with `\b` boundaries on both sides:
Python `re.search(r'\b(\d+)\b', s)`, returning the parsed number.
A digit run is a match iff the character before it (if any) and after it
(if any) are non-word characters; scanning a char at a time with the
boundary test reproduces the regex engine's left-to-right search. -/
def findIntTokenAux : Option Char → List Char → Option Nat
  | _, [] => none
  | prev, c :: rest =>
    if c.isDigit && boundaryOk prev then
      match ((c :: rest).dropWhile Char.isDigit).head? with
      | some n =>
        if isWordChar n then findIntTokenAux (some c) rest
        else some (digitsToNat ((c :: rest).takeWhile Char.isDigit))
      | none => some (digitsToNat ((c :: rest).takeWhile Char.isDigit))
    else
      findIntTokenAux (some c) rest

def findIntToken (s : String) : Option Nat := findIntTokenAux none s.data

/-- A parsed Python float of the decimal-string shape this system produces:
the value `num / 10 ^ scale`.  Kept in scaled-integer form so concrete runs
reduce in the kernel; `toRat` gives the numeric value. -/
structure PyFloat where
  num : Nat
  scale : Nat
  deriving Repr, DecidableEq

def PyFloat.toRat (v : PyFloat) : ℚ := (v.num : ℚ) / (10 : ℚ) ^ v.scale

/-- Strict comparison of parsed floats, mirroring Python `<` on the parsed
values: `a.num / 10^a.scale < b.num / 10^b.scale`. -/
def pfLt (a b : PyFloat) : Bool := a.num * 10 ^ b.scale < b.num * 10 ^ a.scale

/-- Parse a simple unsigned decimal numeral (digits, optionally one dot and
more digits); `none` where Python's `float()` would raise on the strings
this system actually produces. -/
def parseDecimal (s : String) : Option PyFloat :=
  match pySplit s "." with
  | [intPart] =>
    if intPart ≠ "" ∧ intPart.data.all Char.isDigit then
      some ⟨digitsToNat intPart.data, 0⟩
    else none
  | [intPart, fracPart] =>
    if intPart ≠ "" ∧ fracPart ≠ "" ∧ intPart.data.all Char.isDigit ∧
        fracPart.data.all Char.isDigit then
      some ⟨digitsToNat intPart.data * 10 ^ fracPart.data.length +
        digitsToNat fracPart.data, fracPart.data.length⟩
    else none
  | _ => none

/-- Render a non-negative rational that is an exact count of cents as a
two-decimal price string (the shape `f"{x:.2f}"` takes on such values). -/
def formatCents (q : ℚ) : String :=
  let cents : ℤ := (q * 100).num / (q * 100).den
  let c : ℕ := cents.toNat
  toString (c / 100) ++ "." ++
    (if c % 100 < 10 then "0" else "") ++ toString (c % 100)

/-! ## Grocery shopping agent (`src/agents/grocery_agent.py`)

`GroceryAPIs.search_openfoodfacts` (network I/O plus pseudorandom price
estimation) is abstracted into an oracle `String → List Offer`; the
deterministic fallback of `search_all` is embedded.  The item-extraction
LLM call of `_understand_node` is abstracted into the already-parsed
`items` list, `[]` standing for a failed/empty extraction. -/

/-- A product record as built by `GroceryAPIs` (`name`/`price`/`store`/
`barcode` keys).  `price` is optional to mirror `r.get('price')`. -/
structure Offer where
  name : String
  price : Option String
  store : String
  barcode : String
  deriving Repr, DecidableEq

/-- `GroceryAPIs._generic_fallback`. -/
def genericFallback (query : String) : List Offer :=
  [ { name := "Fresh " ++ pyTitle query, price := some "3.99",
      store := "Local Grocery", barcode := "" },
    { name := "Organic " ++ pyTitle query, price := some "5.49",
      store := "Organic Market", barcode := "" },
    { name := pyTitle query ++ " (Store Brand)", price := some "2.99",
      store := "Supermarket", barcode := "" } ]

/-- `GroceryAPIs.search_all`: the OpenFoodFacts lookup is the oracle; an
empty result falls back to `_generic_fallback`. -/
def searchAll (oracle : String → List Offer) (query : String) : List Offer :=
  let results := oracle query
  if results = [] then genericFallback query else results

/-- Stop-word set of `_extract_items_simple`. -/
def ignoreWords : List String :=
  ["i", "want", "to", "buy", "need", "get", "some", "a", "an", "the",
   "please", "can", "could", "would", "like", "love", "shopping", "for",
   "me", "my", "and", "or", "also", "plus"]

/-- The four `re.sub(r'\b...\b', '', ...)` phrases of `_extract_items_simple`. -/
def extractPhrases : List String :=
  ["i want to buy", "i need", "please get me", "can i have"]

/-- Separator list of `_extract_items_simple`. -/
def itemSeparators : List String := [",", " and ", "&", "plus"]

/-- `GroceryShoppingAgent._extract_items_simple`. -/
def extractItemsSimple (text : String) : List String :=
  let textLower := pyLower text
  let textLower := extractPhrases.foldl (fun t p => subBound p t) textLower
  let items := itemSeparators.foldl
    (fun its sep => its.foldr (fun item acc => (pySplit item sep).map pyStrip ++ acc) [])
    [pyStrip textLower]
  let cleaned := items.filterMap (fun item =>
    let words := pySplitWs item
    let kept := words.filter (fun w => !(ignoreWords.contains w) || words.length == 1)
    if kept ≠ [] then
      let cleanedItem := String.intercalate " " kept
      if pyLen cleanedItem > 2 then some cleanedItem else none
    else none)
  if cleaned ≠ [] then cleaned else [pyStrip text]

/-- The `yes_words` list of `_understand_node`. -/
def yesWords : List String := ["yes", "yeah", "sure", "ok", "okay", "proceed", "go ahead"]

/-- The `no_words` list of `_understand_node`. -/
def noWords : List String := ["no", "cancel", "not now", "stop", "nevermind", "nope"]

/-- The grocery domain context persisted per session
(`cart` / `confirmation_stage` / `awaiting_confirmation` / `history`). -/
structure GroceryCtx where
  cart : List Offer
  stage : String
  awaiting : Bool
  history : List String
  deriving Repr, DecidableEq

def emptyGroceryCtx : GroceryCtx :=
  { cart := [], stage := "initial", awaiting := false, history := [] }

/-- The langgraph `AgentState` dictionary (fields the nodes use). -/
structure GState where
  userText : String
  agentResponse : String
  cart : List Offer
  searchResults : List Offer
  awaiting : Bool
  history : List String
  itemsToSearch : List String
  userAction : String
  orderConfirmed : Bool
  stage : String
  resultsByItem : List (String × List Offer)
  deriving Repr

/-- `GroceryShoppingAgent._understand_node`.  `llmItems` is the parsed
result of the extraction LLM call (`[]` = failure or empty result). -/
def understandNode (llmItems : List String) (st : GState) : GState :=
  let lower := pyStrip (pyLower st.userText)
  if st.stage = "awaiting_yes" && containsAny lower yesWords then
    { st with userAction := "confirm_yes", itemsToSearch := [] }
  else if st.stage = "awaiting_yes" && containsAny lower noWords then
    { st with userAction := "cancel", itemsToSearch := [] }
  else if st.stage = "awaiting_final" && containsAny lower (yesWords ++ ["confirm"]) then
    { st with userAction := "final_confirm", itemsToSearch := [] }
  else if st.stage = "awaiting_final" && containsAny lower noWords then
    { st with userAction := "cancel", itemsToSearch := [] }
  else if st.awaiting && containsAny lower (["confirm"] ++ yesWords) then
    { st with userAction := "confirm", itemsToSearch := [] }
  else if containsAny lower (noWords ++ ["clear", "reset"]) then
    { st with userAction := "cancel", itemsToSearch := [] }
  else
    let extracted := if llmItems ≠ [] then llmItems else extractItemsSimple st.userText
    { st with itemsToSearch := extracted, userAction := "search" }

/-- `results_by_item[item] = results` on an insertion-ordered dict. -/
def assocSet : List (String × List Offer) → String → List Offer → List (String × List Offer)
  | [], k, v => [(k, v)]
  | (k', v') :: rest, k, v =>
    if k' = k then (k', v) :: rest else (k', v') :: assocSet rest k v

/-- `GroceryShoppingAgent._search_node`. -/
def searchNode (oracle : String → List Offer) (st : GState) : GState :=
  if st.userAction ∈ ["cancel", "confirm", "confirm_yes", "final_confirm"] then st
  else
    let rbi := st.itemsToSearch.foldl
      (fun m item => assocSet m item (searchAll oracle item)) []
    let all := st.itemsToSearch.foldl
      (fun acc item => acc ++ searchAll oracle item) []
    { st with searchResults := all, resultsByItem := rbi }

/-- Truthiness-plus-sentinel filter of `_reason_node`:
`r.get('price') and r['price'] != 'N/A'`. -/
def offerPriceValid (r : Offer) : Bool :=
  match r.price with
  | none => false
  | some p => p ≠ "" && p ≠ "N/A"

/-- `float(x['price'].replace('$', ''))` as the `min` key. Python raises
on a non-numeric string; every price this system constructs is a plain
two-decimal numeral, and theorems that speak about price order carry the
parseability hypothesis explicitly. -/
def priceKey (r : Offer) : PyFloat :=
  (parseDecimal (dropChar '$' (r.price.getD ""))).getD ⟨0, 0⟩

/-- Python `min(x :: xs, key)`: the first element attaining the minimum. -/
def minByKeyFirst (key : Offer → PyFloat) (x : Offer) (xs : List Offer) : Offer :=
  xs.foldl (fun best r => if pfLt (key r) (key best) then r else best) x

/-- Choice of one cart entry per extracted item in `_reason_node`:
cheapest valid-priced candidate, else first candidate, else nothing. -/
def pickOffer (results : List Offer) : Option Offer :=
  match results with
  | [] => none
  | r0 :: _ =>
    match results.filter offerPriceValid with
    | [] => some r0
    | v :: vs => some (minByKeyFirst priceKey v vs)

/-- The selection loop of `_reason_node` over `search_results_by_item`. -/
def selectCart (rbi : List (String × List Offer)) : List Offer :=
  rbi.filterMap (fun p => pickOffer p.2)

/-- `GroceryShoppingAgent._reason_node`. -/
def reasonNode (st : GState) : GState :=
  if st.userAction = "final_confirm" then
    { st with orderConfirmed := true, stage := "completed", awaiting := false, cart := [] }
  else if st.userAction = "cancel" then
    { st with cart := [], stage := "cancelled", awaiting := false }
  else if st.userAction = "confirm" && st.awaiting then
    { st with stage := "awaiting_yes" }
  else if st.userAction = "confirm_yes" then
    { st with stage := "awaiting_final" }
  else if st.resultsByItem = [] then
    { st with cart := [] }
  else
    { st with cart := selectCart st.resultsByItem, awaiting := true, stage := "initial" }

/-- Numeric cart total (`sum(float(item['price'].replace('$', '')) ...)`). -/
def cartTotal (cart : List Offer) : ℚ :=
  (cart.map (fun r => (priceKey r).toRat)).sum

/-- `f"{item['name']} for ${item['price']}"`. -/
def offerDesc (r : Offer) : String :=
  r.name ++ " for $" ++ r.price.getD "None"

/-- The `items_list` rendering of the awaiting_yes branch. -/
def itemsList (cart : List Offer) : String :=
  String.intercalate ", " (cart.map offerDesc)

/-- The `items_desc` rendering of the cart-built branch. -/
def itemsDesc (cart : List Offer) : String :=
  match cart with
  | [] => ""
  | [r] => offerDesc r
  | r :: rs =>
    String.intercalate ", " (((r :: rs).dropLast).map offerDesc) ++
      ", and " ++ offerDesc ((r :: rs).getLastD r)

/-- `GroceryShoppingAgent._respond_node`. -/
def respondNode (st : GState) : GState :=
  let responseText :=
    if st.orderConfirmed && st.stage = "completed" then
      "Perfect! Your order has been placed successfully! Please pay attention to your phone - you will receive a delivery call soon. Thank you for shopping with us!"
    else if st.stage = "cancelled" then
      "Okay, no problem! Your cart has been cleared. I'm here whenever you need me!"
    else if st.stage = "awaiting_final" then
      if st.cart = [] then "Sorry, your cart is empty. Please start a new order."
      else "Are you sure you want to proceed? I will use your saved card details to complete the payment. Say yes to confirm or no to cancel."
    else if st.stage = "awaiting_yes" then
      if st.cart = [] then "Sorry, your cart is empty. Please start a new order."
      else "Let me confirm your order. You selected: " ++ itemsList st.cart ++
        ". The total is $" ++ formatCents (cartTotal st.cart) ++
        ". Would you like to proceed? Say yes to continue or no to cancel."
    else if st.cart = [] then
      "Sorry, I couldn't find those items. Please try again with different items."
    else
      "I found " ++ toString st.cart.length ++ " items for you: " ++ itemsDesc st.cart ++
        ". Total price: $" ++ formatCents (cartTotal st.cart) ++
        ". Say confirm to review your order, or cancel to clear your cart."
  { st with agentResponse := responseText,
            history := st.history ++ ["Agent: " ++ responseText] }

/-- The `initial_state` dictionary built by `GroceryShoppingAgent.process`. -/
def initGState (input : String) (ctx : GroceryCtx) : GState :=
  { userText := input, agentResponse := "", cart := ctx.cart,
    searchResults := [], awaiting := ctx.awaiting, history := ctx.history,
    itemsToSearch := [], userAction := "search", orderConfirmed := false,
    stage := ctx.stage, resultsByItem := [] }

/-- `GroceryShoppingAgent.process`: one grocery turn over the
understand → search → reason → respond pipeline. -/
def groceryProcess (llmItems : List String) (oracle : String → List Offer)
    (input : String) (ctx : GroceryCtx) : String × GroceryCtx :=
  let st := respondNode (reasonNode (searchNode oracle
    (understandNode llmItems (initGState input ctx))))
  (st.agentResponse,
   { cart := st.cart, stage := st.stage, awaiting := st.awaiting, history := st.history })

/-- Position of a context along the confirmation chain of the spec,
`initial → cart_built → awaiting_yes → awaiting_final → completed`
(`cart_built` is `confirmation_stage == 'initial'` with
`awaiting_confirmation == True` in the code). -/
def stageRank (c : GroceryCtx) : ℕ :=
  if c.stage = "initial" then (if c.awaiting then 1 else 0)
  else if c.stage = "awaiting_yes" then 2
  else if c.stage = "awaiting_final" then 3
  else if c.stage = "completed" then 4
  else 0

/-- Grocery contexts reachable from the empty context by a sequence of
`GroceryShoppingAgent.process` calls, over arbitrary oracle behaviour. -/
inductive GroceryReachable : GroceryCtx → Prop
  | init : GroceryReachable emptyGroceryCtx
  | step (ctx : GroceryCtx) (llmItems : List String)
      (oracle : String → List Offer) (input : String) :
      GroceryReachable ctx →
      GroceryReachable (groceryProcess llmItems oracle input ctx).2

/-- Concrete grocery run (failed extraction LLM, empty product lookup, so
the deterministic fallbacks operate): the turn "tomatoes". -/
def gDemoCtx1 : GroceryCtx :=
  (groceryProcess [] (fun _ => []) "tomatoes" emptyGroceryCtx).2

/-- ... then the turn "confirm". -/
def gDemoCtx2 : GroceryCtx :=
  (groceryProcess [] (fun _ => []) "confirm" gDemoCtx1).2

/-- ... then the fresh item request "apples". -/
def gDemoCtx3 : GroceryCtx :=
  (groceryProcess [] (fun _ => []) "apples" gDemoCtx2).2

/-- ... or, from `gDemoCtx2`, the turn "okay, cancel" instead. -/
def gDemoCtx2b : GroceryCtx :=
  (groceryProcess [] (fun _ => []) "okay, cancel" gDemoCtx2).2

/-- A concrete candidate list exercising the cart-selection rule. -/
def c2DemoOffers : List Offer :=
  [{ name := "Organic Milk", price := some "5.49", store := "Organic Market", barcode := "" },
   { name := "Store Milk", price := some "2.99", store := "Supermarket", barcode := "" },
   { name := "Milk (unpriced)", price := none, store := "Corner Shop", barcode := "" }]

/-! ## News intelligence agent (`src/agents/news_agent.py`)

`SerperAPI.search` is abstracted into an oracle
`query → search_type → Option (List NewsItem)` (`none` = the
`success: False` marker, `some items` = the list stored under the
category key of the response).  The router LLM call is abstracted into the
already-parsed `routing["agent"]` value (`none` = any failure, which takes
the keyword-fallback path). -/

/-- A normalized result record (a Serper result dict); every field is
optional, mirroring `item.get(...)`. -/
structure NewsItem where
  title : Option String := none
  snippet : Option String := none
  source : Option String := none
  date : Option String := none
  rating : Option String := none
  address : Option String := none
  phoneNumber : Option String := none
  price : Option String := none
  link : Option String := none
  deriving Repr, DecidableEq

def defaultNewsItem : NewsItem := {}

/-- The per-session news conversation context dictionary:
`current_articles` / `current_papers` / `current_places` /
`current_products` / `current_media` / `current_results`,
plus `last_search_type` and `last_query` (absent keys modelled as
`[]` / `""`, matching Python truthiness). -/
structure NewsCtx where
  articles : List NewsItem := []
  papers : List NewsItem := []
  places : List NewsItem := []
  products : List NewsItem := []
  media : List NewsItem := []
  results : List NewsItem := []
  lastSearchType : String := ""
  lastQuery : String := ""
  deriving Repr, DecidableEq

def emptyNewsCtx : NewsCtx := {}

/-- The `follow_up_words` list of `_check_for_follow_up`. -/
def followUpWords : List String :=
  ["tell me more", "more about", "what about", "about the",
   "first one", "second one", "third", "number", "article",
   "that place", "that product", "this video", "the paper",
   "link", "detail", "explain", "summarize"]

/-- `NewsIntelligenceAgent._check_for_follow_up`. -/
def checkForFollowUp (userText : String) (ctx : NewsCtx) : Bool :=
  let lastMessage := pyLower userText
  let hasContext := ctx.articles ≠ [] || ctx.papers ≠ [] || ctx.places ≠ [] ||
    ctx.products ≠ [] || ctx.media ≠ [] || ctx.results ≠ []
  hasContext && containsAny lastMessage followUpWords

/-- The `number_words` dict of `_deepdive_agent`, in its insertion order. -/
def numberWords : List (String × Nat) :=
  [("first", 0), ("1", 0), ("one", 0),
   ("second", 1), ("2", 1), ("two", 1),
   ("third", 2), ("3", 2), ("three", 2),
   ("fourth", 3), ("4", 3), ("four", 3),
   ("fifth", 4), ("5", 4), ("five", 4)]

/-- The ordinal scan of `_deepdive_agent`: the first entry of
`number_words` (in insertion order) occurring as a substring wins. -/
def parseItemIndex (lastMessage : String) : Option Nat :=
  (numberWords.find? (fun p => strContains lastMessage p.1)).map Prod.snd

/-- Which cached list `last_search_type` selects in `_deepdive_agent`
(`none` = no branch matches, leaving `stored_items = None`). -/
def storedItemsFor (ctx : NewsCtx) : Option (List NewsItem) :=
  if ctx.lastSearchType = "news" then some ctx.articles
  else if ctx.lastSearchType = "research" then some ctx.papers
  else if ctx.lastSearchType = "places" then some ctx.places
  else if ctx.lastSearchType = "shopping" then some ctx.products
  else if ctx.lastSearchType = "images" ∨ ctx.lastSearchType = "videos" then some ctx.media
  else if ctx.lastSearchType = "web" then some ctx.results
  else none

/-- The `if item.get('link')` rendering tail shared by the detail view. -/
def linkTail (item : NewsItem) : String :=
  match item.link with
  | some l => if l ≠ "" then "\n🔗 **Link:** " ++ l ++ "\n" else ""
  | none => ""

/-- The single-item detail rendering of `_deepdive_agent` with its
per-category field template. -/
def renderDetail (searchType : String) (item : NewsItem) (idx : Nat) : String :=
  "📋 **Details about item #" ++ toString (idx + 1) ++ ":**\n\n" ++
  "**Title:** " ++ item.title.getD "No title" ++ "\n" ++
  (if searchType = "news" then
    "**Source:** " ++ item.source.getD "Unknown" ++ "\n" ++
    "**Date:** " ++ item.date.getD "N/A" ++ "\n" ++
    "**Summary:** " ++ item.snippet.getD "No summary available" ++ "\n"
   else if searchType = "places" then
    "**Rating:** " ++ item.rating.getD "N/A" ++ " ⭐\n" ++
    "**Address:** " ++ item.address.getD "N/A" ++ "\n" ++
    "**Phone:** " ++ item.phoneNumber.getD "N/A" ++ "\n"
   else if searchType = "shopping" then
    "**Price:** " ++ item.price.getD "N/A" ++ "\n" ++
    "**Source:** " ++ item.source.getD "Unknown" ++ "\n"
   else
    "**Description:** " ++ item.snippet.getD "No description" ++ "\n") ++
  linkTail item

/-- The numbered overview of up to 5 cached items in `_deepdive_agent`. -/
def renderOverview (ctx : NewsCtx) (stored : List NewsItem) : String :=
  "📚 **You have " ++ toString stored.length ++ " " ++ ctx.lastSearchType ++
  " results from your search: \'" ++ ctx.lastQuery ++ "\'**\n\n" ++
  "Here\'s what I found:\n\n" ++
  String.join ((stored.take 5).enum.map (fun p =>
    toString (p.1 + 1) ++ ". " ++ p.2.title.getD "No title" ++ "\n")) ++
  "\n💡 *Ask about a specific item (e.g., \'tell me about the first one\') for more details!*"

/-- `NewsIntelligenceAgent._deepdive_agent` (returns the reply; the
conversation context is left unchanged by this node). -/
def deepdiveAgent (ctx : NewsCtx) (userText : String) : String :=
  let lastMessage := pyLower userText
  let itemIndex := parseItemIndex lastMessage
  let stored := (storedItemsFor ctx).getD []
  if stored = [] then
    "I don\'t have any previous results to discuss. Please search for something first!"
  else
    match itemIndex with
    | some idx =>
      if idx < stored.length then
        renderDetail ctx.lastSearchType (stored.getD idx defaultNewsItem) idx
      else renderOverview ctx stored
    | none => renderOverview ctx stored

/-- `_news_agent`. -/
def newsAgentNode (serper : String → String → Option (List NewsItem))
    (msg : String) (ctx : NewsCtx) : String × NewsCtx :=
  match serper msg "news" with
  | some articles =>
    ("📰 **Found " ++ toString articles.length ++ " news articles**\n\n" ++
     String.join ((articles.take 5).enum.map (fun p =>
       "**" ++ toString (p.1 + 1) ++ ". " ++ p.2.title.getD "No title" ++ "**\n" ++
       "   Source: " ++ p.2.source.getD "Unknown" ++ "\n" ++
       "   " ++ p.2.snippet.getD "" ++ "\n" ++
       (match p.2.link with
        | some l => if l ≠ "" then "   🔗 " ++ l ++ "\n" else ""
        | none => "") ++ "\n")) ++
     "💡 *Ask me about any specific article for more details!*",
     { ctx with articles := articles, lastSearchType := "news", lastQuery := msg })
  | none => ("❌ Couldn\'t fetch news.", ctx)

/-- `_research_agent`. -/
def researchAgentNode (serper : String → String → Option (List NewsItem))
    (msg : String) (ctx : NewsCtx) : String × NewsCtx :=
  match serper msg "scholar" with
  | some papers =>
    ("🎓 **Found " ++ toString papers.length ++ " academic papers**\n\n" ++
     String.join ((papers.take 5).enum.map (fun p =>
       "**" ++ toString (p.1 + 1) ++ ". " ++ p.2.title.getD "No title" ++ "**\n" ++
       "   " ++ p.2.snippet.getD "" ++ "\n" ++
       (match p.2.link with
        | some l => if l ≠ "" then "   🔗 " ++ l ++ "\n" else ""
        | none => "") ++ "\n")) ++
     "💡 *Ask me about any paper for more details!*",
     { ctx with papers := papers, lastSearchType := "research", lastQuery := msg })
  | none => ("❌ No papers found.", ctx)

/-- `_local_agent`. -/
def localAgentNode (serper : String → String → Option (List NewsItem))
    (msg : String) (ctx : NewsCtx) : String × NewsCtx :=
  match serper msg "places" with
  | some places =>
    ("📍 **Found " ++ toString places.length ++ " places**\n\n" ++
     String.join ((places.take 5).enum.map (fun p =>
       "**" ++ toString (p.1 + 1) ++ ". " ++ p.2.title.getD "No name" ++ "**\n" ++
       "   ⭐ Rating: " ++ p.2.rating.getD "N/A" ++ "\n" ++
       "   📍 " ++ p.2.address.getD "No address" ++ "\n" ++
       (match p.2.phoneNumber with
        | some ph => if ph ≠ "" then "   📞 " ++ ph ++ "\n" else ""
        | none => "") ++ "\n")) ++
     "💡 *Ask me about any place for more details!*",
     { ctx with places := places, lastSearchType := "places", lastQuery := msg })
  | none => ("❌ No places found.", ctx)

/-- `_shopping_agent`. -/
def shoppingAgentNode (serper : String → String → Option (List NewsItem))
    (msg : String) (ctx : NewsCtx) : String × NewsCtx :=
  match serper msg "shopping" with
  | some products =>
    ("🛍️ **Found " ++ toString products.length ++ " products**\n\n" ++
     String.join ((products.take 5).enum.map (fun p =>
       "**" ++ toString (p.1 + 1) ++ ". " ++ p.2.title.getD "No title" ++ "**\n" ++
       "   💰 Price: " ++ p.2.price.getD "N/A" ++ "\n" ++
       "   🪐 Source: " ++ p.2.source.getD "Unknown" ++ "\n" ++
       (match p.2.link with
        | some l => if l ≠ "" then "   🔗 " ++ l ++ "\n" else ""
        | none => "") ++ "\n")) ++
     "💡 *Ask me about any product for more details!*",
     { ctx with products := products, lastSearchType := "shopping", lastQuery := msg })
  | none => ("❌ No products found.", ctx)

/-- `_media_agent`. -/
def mediaAgentNode (serper : String → String → Option (List NewsItem))
    (msg : String) (ctx : NewsCtx) : String × NewsCtx :=
  let searchType := if strContains (pyLower msg) "video" then "videos" else "images"
  match serper msg searchType with
  | some items =>
    ("🎬 **Found " ++ toString items.length ++ " " ++ searchType ++ "**\n\n" ++
     String.join ((items.take 5).enum.map (fun p =>
       "**" ++ toString (p.1 + 1) ++ ". " ++ p.2.title.getD "No title" ++ "**\n" ++
       (match p.2.link with
        | some l => if l ≠ "" then "   🔗 " ++ l ++ "\n" else ""
        | none => "") ++ "\n")) ++
     "💡 *Ask me about any item for more details!*",
     { ctx with media := items, lastSearchType := searchType, lastQuery := msg })
  | none => ("❌ No " ++ searchType ++ " found.", ctx)

/-- `_web_agent`. -/
def webAgentNode (serper : String → String → Option (List NewsItem))
    (msg : String) (ctx : NewsCtx) : String × NewsCtx :=
  match serper msg "search" with
  | some results =>
    ("🌐 **Found " ++ toString results.length ++ " web results**\n\n" ++
     String.join ((results.take 5).enum.map (fun p =>
       "**" ++ toString (p.1 + 1) ++ ". " ++ p.2.title.getD "No title" ++ "**\n" ++
       "   " ++ p.2.snippet.getD "" ++ "\n" ++
       (match p.2.link with
        | some l => if l ≠ "" then "   🔗 " ++ l ++ "\n" else ""
        | none => "") ++ "\n")) ++
     "💡 *Ask me about any result for more details!*",
     { ctx with results := results, lastSearchType := "web", lastQuery := msg })
  | none => ("❌ No results found.", ctx)

/-- The keyword fallback of `_router_agent`. -/
def newsKeywordRoute (msg : String) : String :=
  let lastLower := pyLower msg
  if containsAny lastLower ["news", "today", "latest", "breaking"] then "news_agent"
  else if containsAny lastLower ["research", "paper", "study", "scholar"] then "research_agent"
  else if containsAny lastLower ["place", "restaurant", "hotel", "near"] then "local_agent"
  else if containsAny lastLower ["buy", "price", "shop", "product"] then "shopping_agent"
  else if containsAny lastLower ["image", "video", "photo"] then "media_agent"
  else "web_agent"

/-- `NewsIntelligenceAgent.process`: router node then the selected
sub-agent.  `routerLLM` is the parsed `routing["agent"]` value (`none` =
LLM/parse failure, taking the keyword fallback).  `none` overall models the
langgraph crash on an agent name outside the conditional-edge map. -/
def newsProcess (routerLLM : Option String)
    (serper : String → String → Option (List NewsItem))
    (input : String) (ctx : NewsCtx) : Option (String × NewsCtx) :=
  if checkForFollowUp input ctx then
    some (deepdiveAgent ctx input, ctx)
  else
    let agent := match routerLLM with
      | some a => a
      | none => newsKeywordRoute input
    if agent = "news_agent" then some (newsAgentNode serper input ctx)
    else if agent = "research_agent" then some (researchAgentNode serper input ctx)
    else if agent = "local_agent" then some (localAgentNode serper input ctx)
    else if agent = "shopping_agent" then some (shoppingAgentNode serper input ctx)
    else if agent = "media_agent" then some (mediaAgentNode serper input ctx)
    else if agent = "web_agent" then some (webAgentNode serper input ctx)
    else if agent = "deepdive_agent" then some (deepdiveAgent ctx input, ctx)
    else none

/-- Two distinct cached articles for exercising the follow-up resolver. -/
def c3DemoItem1 : NewsItem :=
  { title := some "Alpha breakthrough", source := some "Wire",
    date := some "2025-01-01", snippet := some "First story.",
    link := some "https://example.org/a" }

def c3DemoItem2 : NewsItem :=
  { title := some "Beta setback", source := some "Post",
    date := some "2025-01-02", snippet := some "Second story.",
    link := some "https://example.org/b" }

/-- A news context caching those two articles. -/
def c3DemoCtx : NewsCtx :=
  { articles := [c3DemoItem1, c3DemoItem2], lastSearchType := "news",
    lastQuery := "ai news" }

/-! ## Email & calendar agent (`src/agents/email_agent.py`)

`GoogleAPIClient` (Gmail/Calendar HTTP) is abstracted into a `MailAdapter`
record of per-call results, and every adapter call the agent makes is
recorded in an output trace of `MailCall` values.  The three LLM calls of
the analysis graph (triage / meeting extraction / draft) are abstracted
into their already-parsed outputs (`none` = invoke or JSON-parse failure,
which takes each step's fallback).  Calendar instants are carried as the
`(date, time, duration)` strings the code feeds `datetime.fromisoformat`,
not as absolute times. -/

/-- An email record as built by `get_email_details`. -/
structure Email where
  id : String
  subject : String
  sender : String
  date : String
  body : String
  threadId : String
  deriving Repr, DecidableEq

def defaultEmail : Email :=
  { id := "", subject := "", sender := "", date := "", body := "", threadId := "" }

/-- Parsed meeting-extraction JSON, plus the `is_available` key that
`_extract_meeting_details` adds after the free/busy check (`none` both for
an absent key and for the `None` value `get_free_busy` yields on error -
the two are indistinguishable to every consumer, which only tests
truthiness). -/
structure MeetingD where
  hasMeeting : Bool := false
  proposedDate : Option String := none
  proposedTime : Option String := none
  durationMinutes : Option Nat := none
  topic : Option String := none
  needsResponse : Bool := false
  isAvailable : Option Bool := none
  deriving Repr, DecidableEq

/-- Parsed triage JSON (each key may be absent). -/
structure TriageJson where
  priority : Option String := none
  category : Option String := none
  action : Option String := none
  deriving Repr, DecidableEq

/-- The three LLM calls of the analysis graph, already parsed
(`none` = failure). -/
structure EmailLLM where
  triage : Option TriageJson := none
  meeting : Option MeetingD := none
  draft : Option String := none
  deriving Repr, DecidableEq

/-- One turn's responses from the Google adapter. -/
structure MailAdapter where
  unread : List Email := []
  sendRes : Bool × String := (true, "")
  markReadRes : Bool := true
  createEventRes : Bool × String := (true, "")
  freeBusyRes : Option Bool := some true
  deriving Repr, DecidableEq

/-- An adapter call, as recorded in the turn's trace. -/
inductive MailCall where
  | listUnread (maxResults : Nat)
  | send (toAddr subject body : String) (threadId : Option String)
  | markRead (id : String)
  | createEvent (summary date time : String) (durationMinutes : Nat)
      (description : String) (attendees : List String)
  | freeBusy (date time : String) (durationMinutes : Nat)
  deriving Repr, DecidableEq

def MailCall.isSend : MailCall → Bool
  | MailCall.send _ _ _ _ => true
  | _ => false

def isLeapYear (y : Nat) : Bool := (y % 4 = 0 && y % 100 ≠ 0) || y % 400 = 0

def daysInMonth (y m : Nat) : Nat :=
  if m = 1 ∨ m = 3 ∨ m = 5 ∨ m = 7 ∨ m = 8 ∨ m = 10 ∨ m = 12 then 31
  else if m = 4 ∨ m = 6 ∨ m = 9 ∨ m = 11 then 30
  else if isLeapYear y then 29 else 28

/-- Does `datetime.fromisoformat(date ++ "T" ++ time ++ ":00")` succeed?
(The canonical `YYYY-MM-DD` / `HH:MM` shapes the prompts request.) -/
def validDate (d : String) : Bool :=
  match d.data with
  | [y1, y2, y3, y4, '-', m1, m2, '-', d1, d2] =>
    [y1, y2, y3, y4, m1, m2, d1, d2].all Char.isDigit &&
    (let y := digitsToNat [y1, y2, y3, y4]
     let m := digitsToNat [m1, m2]
     let dd := digitsToNat [d1, d2]
     1 ≤ m && m ≤ 12 && 1 ≤ dd && dd ≤ daysInMonth y m)
  | _ => false

def validTime (t : String) : Bool :=
  match t.data with
  | [h1, h2, ':', n1, n2] =>
    [h1, h2, n1, n2].all Char.isDigit &&
    digitsToNat [h1, h2] ≤ 23 && digitsToNat [n1, n2] ≤ 59
  | _ => false

/-- Result of one run of the analysis graph (the fields its callers read). -/
structure EmailGraphResult where
  priority : String
  category : String
  action : String
  draftResponse : String
  meetingDetails : Option MeetingD
  deriving Repr, DecidableEq

/-- `_triage_email`: priority/category/action with the
Medium/Information/Reply defaults on any failure or missing key. -/
def triageStep (llm : EmailLLM) : String × String × String :=
  match llm.triage with
  | some t => (t.priority.getD "Medium", t.category.getD "Information", t.action.getD "Reply")
  | none => ("Medium", "Information", "Reply")

/-- `_decide_next_action`. -/
def decideNextAction (category action : String) : String :=
  if category = "Meeting Request" then "extract_meeting"
  else if action = "Reply" ∨ action = "Action Required" then "draft_response"
  else "end"

/-- `_extract_meeting_details`: the stored `meeting_details` value and the
adapter calls made.  On extraction failure the stored dict is
`{"has_meeting": False}`; the free/busy check runs only when a meeting was
detected and the proposed date/time parse. -/
def extractMeetingStep (llm : EmailLLM) (adapter : MailAdapter) :
    Option MeetingD × List MailCall :=
  match llm.meeting with
  | none => (some {}, [])
  | some mj =>
    if mj.hasMeeting then
      match mj.proposedDate, mj.proposedTime with
      | some d, some t =>
        if validDate d && validTime t then
          let dur := mj.durationMinutes.getD 60
          (some { mj with isAvailable := adapter.freeBusyRes },
           [MailCall.freeBusy d t dur])
        else (some mj, [])
      | _, _ => (some mj, [])
    else (some mj, [])

/-- One run of the analysis graph from `process` (`analyze` and
`draft` turns both invoke it with `send_reply = False` and
`create_event = False`, so `_execute_actions` only marks the email read;
the `end` triage path skips `_execute_actions` entirely). -/
def runEmailGraph (llm : EmailLLM) (adapter : MailAdapter) (e : Email) :
    EmailGraphResult × List MailCall :=
  let tri := triageStep llm
  let pri := tri.1
  let cat := tri.2.1
  let act := tri.2.2
  if decideNextAction cat act = "extract_meeting" then
    let ms := extractMeetingStep llm adapter
    ({ priority := pri, category := cat, action := act,
       draftResponse := llm.draft.getD "", meetingDetails := ms.1 },
     ms.2 ++ [MailCall.markRead e.id])
  else if decideNextAction cat act = "draft_response" then
    ({ priority := pri, category := cat, action := act,
       draftResponse := llm.draft.getD "", meetingDetails := none },
     [MailCall.markRead e.id])
  else
    ({ priority := pri, category := cat, action := act,
       draftResponse := "", meetingDetails := none }, [])

/-- The agent-held conversational state of `EmailCalendarAgent`
(instance attributes, not per-session data). -/
structure EmailState where
  currentEmail : Option Email := none
  cachedEmails : List Email := []
  draftReady : Option String := none
  meetingReady : Option MeetingD := none
  lastState : Option EmailGraphResult := none
  deriving Repr, DecidableEq

def emptyEmailState : EmailState := {}

/-- Python truthiness of `self.draft_ready` (`None` and `""` are falsy). -/
def draftTruthy (o : Option String) : Bool := o.getD "" ≠ ""

/-- Truthiness of `meeting_details.get('has_meeting')` over the optional
stored dict. -/
def hasMeetingB : Option MeetingD → Bool
  | some m => m.hasMeeting
  | none => false

/-- Python `body[:500] + ("..." if len(body) > 500 else "")`. -/
def bodyPreview (body : String) : String :=
  String.mk (body.data.take 500) ++ (if pyLen body > 500 then "..." else "")

/-- The unread-email listing rendered by the list branch. -/
def renderEmailList (emails : List Email) : String :=
  String.intercalate "\n"
    (["📬 **Your Unread Emails:**\n"] ++
     emails.enum.map (fun p =>
       toString (p.1 + 1) ++ ". **From:** " ++ p.2.sender ++
       "\n   **Subject:** " ++ p.2.subject ++ "\n") ++
     ["\n💡 Type a number to select an email (e.g., \'1\' or \'select 3\')"])

/-- The selection confirmation rendered by the select branch. -/
def renderEmailSelected (e : Email) : String :=
  "📧 **Email Selected:**\n\n" ++
  "**From:** " ++ e.sender ++ "\n" ++
  "**Subject:** " ++ e.subject ++ "\n" ++
  "**Date:** " ++ e.date ++ "\n\n" ++
  "**Content Preview:**\n" ++ bodyPreview e.body ++ "\n\n" ++
  "💡 What would you like to do?\n" ++
  "• Type \'draft reply\' to create a response\n" ++
  "• Type \'full content\' to see the complete email\n" ++
  "• Type \'analyze\' to get AI insights"

def renderFullEmail (e : Email) : String :=
  "📧 **Full Email:**\n\n" ++
  "**From:** " ++ e.sender ++ "\n" ++
  "**Subject:** " ++ e.subject ++ "\n" ++
  "**Date:** " ++ e.date ++ "\n\n" ++
  "**Full Content:**\n" ++ e.body

def renderAnalysis (r : EmailGraphResult) : String :=
  "🔍 **Email Analysis:**\n\n" ++
  "**Priority:** " ++ r.priority ++ "\n" ++
  "**Category:** " ++ r.category ++ "\n" ++
  "**Recommended Action:** " ++ r.action ++ "\n" ++
  (if hasMeetingB r.meetingDetails then
    let m := r.meetingDetails.getD {}
    "\n📅 **Meeting Detected:**\n" ++
    "• Topic: " ++ m.topic.getD "N/A" ++ "\n" ++
    "• Date: " ++ m.proposedDate.getD "N/A" ++ "\n" ++
    "• Time: " ++ m.proposedTime.getD "N/A" ++ "\n" ++
    "• Available: " ++ (if m.isAvailable = some true then "✅ Yes" else "❌ Conflict") ++ "\n"
   else "")

def renderDraftReply (draft : String) (meetingReady : Option MeetingD) : String :=
  "✉️ **Draft Reply:**\n\n" ++ draft ++ "\n\n" ++
  (match meetingReady with
   | some m =>
     if m.isAvailable = some true then
       "📅 **Meeting to Schedule:**\n" ++
       "• " ++ m.topic.getD "None" ++ "\n" ++
       "• " ++ m.proposedDate.getD "None" ++ " at " ++ m.proposedTime.getD "None" ++ "\n\n"
     else ""
   | none => "") ++
  "💡 Type \'yes\' to send, \'no\' to cancel, or \'edit\' to modify"

def emailHelpEmpty : String :=
  "📧📅 **Email & Calendar Assistant**\n\n" ++
  "I can help with:\n" ++
  "• Managing your Gmail inbox\n" ++
  "• Scheduling meetings and events\n" ++
  "• Drafting and sending replies\n\n" ++
  "💡 Try: \'Check my emails\' to get started"

def emailHelpCached : String :=
  "💡 **Available commands:**\n" ++
  "• Select an email by number (1, 2, 3...)\n" ++
  "• \'draft reply\' - Create a response\n" ++
  "• \'full content\' - See complete email\n" ++
  "• \'analyze\' - Get AI insights\n" ++
  "• \'check emails\' - Refresh inbox"

/-- `EmailCalendarAgent.process`: one email/calendar turn.  Returns
`none` where the Python raises an uncaught exception (a pending
confirmation with no selected email dereferences `self.current_email`).
The trace lists the adapter calls in order.  The caught-exception reply of
the meeting branch interpolates `str(e)`; here it carries a fixed
stand-in text, as no consumer inspects it. -/
def emailProcess (llm : EmailLLM) (adapter : MailAdapter) (userInput : String)
    (st : EmailState) : Option (String × EmailState × List MailCall) :=
  let userLower := pyStrip (pyLower userInput)
  if userLower ∈ ["yes", "y", "confirm", "send", "send it"] then
    if draftTruthy st.draftReady then
      match st.currentEmail with
      | none => none
      | some e =>
        let ok := adapter.sendRes.1
        let res := adapter.sendRes.2
        let draft := st.draftReady.getD ""
        if ok then
          some ("✅ Reply sent successfully! (ID: " ++ res ++ ")",
            { st with currentEmail := none, draftReady := none },
            [MailCall.send e.sender e.subject draft (some e.threadId),
             MailCall.markRead e.id])
        else
          some ("❌ Failed to send: " ++ res, { st with draftReady := none },
            [MailCall.send e.sender e.subject draft (some e.threadId)])
    else
      match st.meetingReady with
      | some mtg =>
        match st.currentEmail with
        | none => none
        | some e =>
          match mtg.proposedDate, mtg.proposedTime with
          | some d, some t =>
            if validDate d && validTime t then
              let dur := mtg.durationMinutes.getD 60
              let ok := adapter.createEventRes.1
              let res := adapter.createEventRes.2
              let calls := [MailCall.createEvent (mtg.topic.getD e.subject) d t dur
                ("Meeting with " ++ e.sender) [e.sender]]
              if ok then
                some ("✅ Meeting scheduled! " ++ res,
                  { st with meetingReady := none }, calls)
              else
                some ("❌ Failed: " ++ res, { st with meetingReady := none }, calls)
            else some ("❌ Error scheduling meeting: invalid datetime", st, [])
          | _, _ => some ("❌ Error scheduling meeting: invalid datetime", st, [])
      | none =>
        some ("❌ Nothing to confirm. Please select an email first or request a draft.",
          st, [])
  else if userLower ∈ ["no", "n", "cancel", "skip"] then
    some ("❌ Cancelled. What would you like to do next?",
      { st with draftReady := none, meetingReady := none }, [])
  else if containsAny userLower ["check", "show", "list"] &&
      containsAny userLower ["email", "inbox", "unread"] then
    let emails := adapter.unread
    let st1 := { st with cachedEmails := emails }
    if emails = [] then some ("📭 No unread emails found.", st1, [MailCall.listUnread 20])
    else some (renderEmailList emails, st1, [MailCall.listUnread 20])
  else
    match findIntToken userInput, containsAny userLower ["reply", "draft", "schedule"] with
    | some n, false =>
      let fetch := st.cachedEmails = []
      let cached := if fetch then adapter.unread else st.cachedEmails
      let calls := if fetch then [MailCall.listUnread 20] else []
      let st1 := { st with cachedEmails := cached }
      if n = 0 ∨ cached.length ≤ n - 1 then
        some ("❌ Invalid selection. Please choose 1-" ++ toString cached.length,
          st1, calls)
      else
        let e := cached.getD (n - 1) defaultEmail
        some (renderEmailSelected e, { st1 with currentEmail := some e }, calls)
    | _, _ =>
      if userLower ∈ ["full", "full content", "show all", "read all"] then
        match st.currentEmail with
        | none => some ("❌ No email selected. Please select an email first.", st, [])
        | some e => some (renderFullEmail e, st, [])
      else if strContains userLower "analyze" then
        match st.currentEmail with
        | none => some ("❌ No email selected. Please select an email first.", st, [])
        | some e =>
          let rc := runEmailGraph llm adapter e
          some (renderAnalysis rc.1, { st with lastState := some rc.1 }, rc.2)
      else if containsAny userLower ["draft", "reply", "respond"] then
        match st.currentEmail with
        | none => some ("❌ No email selected. Please select an email first.", st, [])
        | some e =>
          let rc := runEmailGraph llm adapter e
          let newMeeting :=
            if hasMeetingB rc.1.meetingDetails then rc.1.meetingDetails else none
          some (renderDraftReply rc.1.draftResponse newMeeting,
            { st with lastState := some rc.1,
                      draftReady := some rc.1.draftResponse,
                      meetingReady := newMeeting }, rc.2)
      else if st.cachedEmails = [] then some (emailHelpEmpty, st, [])
      else some (emailHelpCached, st, [])

/-- A concrete meeting-request email for exercising the pending-action
handling. -/
def c6DemoEmail : Email :=
  { id := "m1", subject := "Project sync", sender := "alice@example.com",
    date := "Mon, 10 Mar 2025", body := "Shall we meet?", threadId := "t1" }

/-- LLM outputs that classify `c6DemoEmail` as a meeting request and
produce a draft. -/
def c6DemoLLM : EmailLLM :=
  { triage := some { priority := some "High", category := some "Meeting Request",
                     action := some "Schedule" },
    meeting := some { hasMeeting := true, proposedDate := some "2025-03-10",
                      proposedTime := some "10:00", durationMinutes := some 30,
                      topic := some "Sync", needsResponse := true },
    draft := some "Sounds good, see you then." }

/-- Email-agent state with `c6DemoEmail` selected. -/
def c6DemoState0 : EmailState :=
  { currentEmail := some c6DemoEmail, cachedEmails := [c6DemoEmail] }

/-- ... after the turn "draft reply". -/
def c6DemoState1 : EmailState :=
  ((emailProcess c6DemoLLM {} "draft reply" c6DemoState0).getD
    ("", emptyEmailState, [])).2.1

/-- ... and after the further turn "1" (positional selection). -/
def c6DemoState2 : EmailState :=
  ((emailProcess c6DemoLLM {} "1" c6DemoState1).getD
    ("", emptyEmailState, [])).2.1

/-- One Gmail fetch attempt, as seen by `get_unread_emails`. -/
inductive FetchOutcome where
  | ok (emails : List Email)
  | authExpired
  | otherError
  deriving Repr, DecidableEq

/-- `GoogleAPIClient.get_unread_emails` over the sequence of outcomes the
Gmail API yields on successive attempts: on a 401 it re-authenticates and
calls itself again; on another error it returns `[]`.  The result is
paired with the number of `authenticate()` calls performed;
`(none, _)` models exhausting the outcome list, i.e. the call still
running (the recursion has no bound in the code). -/
def getUnreadEmailsRetry : List FetchOutcome → Option (List Email) × Nat
  | [] => (none, 0)
  | FetchOutcome.ok es :: _ => (some es, 0)
  | FetchOutcome.authExpired :: rest =>
    let r := getUnreadEmailsRetry rest
    (r.1, r.2 + 1)
  | FetchOutcome.otherError :: _ => (some [], 0)

/-! ## Master router (`src/agents/orchestrator.py`) and the turn endpoint
(`src/api/routes/message_routes.py`, `src/core/session_manager.py`)

The routing LLM call is abstracted into `Except String String`: `ok` with
the raw response content, `error` with the exception text.  The weather
agent (pure I/O plumbing, untouched by the claims) is an oracle
`String → String`.  The orchestrator is a singleton holding the one
`EmailCalendarAgent`, whose state is threaded separately from the
per-session conversation state. -/

/-- The bare confirmation/cancellation tokens of `MasterRouterAgent.route`. -/
def bareTokens : List String :=
  ["yes", "no", "confirm", "cancel", "yeah", "sure", "ok", "okay",
   "proceed", "go ahead", "not now", "stop", "nevermind", "nope"]

/-- One session's conversation state
(`history` / `news_context` / `grocery_context` / `current_agent`),
initialised by `SessionManager.get_or_create`. -/
structure ConvState where
  history : List String := []
  newsCtx : NewsCtx := {}
  groceryCtx : GroceryCtx := emptyGroceryCtx
  currentAgent : Option String := none
  deriving Repr, DecidableEq

def freshSession : ConvState := {}

/-- The oracle bundle for one routed turn. -/
structure RouteOracles where
  routeLLM : Except String String
  newsRouterLLM : Option String := none
  serper : String → String → Option (List NewsItem) := fun _ _ => none
  groceryLLM : List String := []
  grocerySearch : String → List Offer := fun _ => []
  weather : String → String := fun _ => ""
  emailLLM : EmailLLM := {}
  mailAdapter : MailAdapter := {}

/-- The grocery-stickiness check at the top of `route`. -/
def grocerySticky (input : String) (cs : ConvState) : Bool :=
  cs.currentAgent = some "grocery_agent" &&
    (cs.groceryCtx.awaiting || cs.groceryCtx.stage ≠ "initial" ||
      pyStrip (pyLower input) ∈ bareTokens)

/-- The response-cleaning loop of `route`: the first of the four valid
names occurring in the stripped, lowercased LLM output, else that raw
output. -/
def cleanAgentName (resp : String) : String :=
  let a := pyLower (pyStrip resp)
  match (["news_agent", "weather_agent", "email_agent", "grocery_agent"].find?
    (fun v => strContains a v)) with
  | some v => v
  | none => a

/-- The `else` help message of the dispatch section of `route`. -/
def generalHelp : String :=
  "🤖 **I can help you with:**\n\n" ++
  "📰 News, research, places, shopping\n" ++
  "🌤️ Weather forecasts and information\n" ++
  "📧 Email and calendar management\n" ++
  "🛒 Grocery shopping\n\n" ++
  "What would you like to do?"

/-- `MasterRouterAgent.route`: (agent label, response, conversation state,
email-agent state, email adapter trace).  `none` models an uncaught
exception inside a dispatched agent. -/
def route (o : RouteOracles) (input : String) (cs : ConvState) (est : EmailState) :
    Option (String × String × ConvState × EmailState × List MailCall) :=
  let aname : Except String String :=
    if grocerySticky input cs then Except.ok "grocery_agent"
    else o.routeLLM.map cleanAgentName
  match aname with
  | Except.error e => some ("error", "Error: " ++ e, cs, est, [])
  | Except.ok agentName =>
    if agentName = "news_agent" then
      match newsProcess o.newsRouterLLM o.serper input cs.newsCtx with
      | some r => some ("news_agent", r.1, { cs with newsCtx := r.2 }, est, [])
      | none => none
    else if agentName = "weather_agent" then
      some ("weather_agent", o.weather input, cs, est, [])
    else if agentName = "email_agent" then
      match emailProcess o.emailLLM o.mailAdapter input est with
      | some r => some ("email_agent", r.1, cs, r.2.1, r.2.2)
      | none => none
    else if agentName = "grocery_agent" then
      let r := groceryProcess o.groceryLLM o.grocerySearch input cs.groceryCtx
      some ("grocery_agent", r.1, { cs with groceryCtx := r.2 }, est, [])
    else
      some ("general", generalHelp, cs, est, [])

/-- The session map of `SessionManager` with dict insert/overwrite. -/
def setSession : List (String × ConvState) → String → ConvState →
    List (String × ConvState)
  | [], k, v => [(k, v)]
  | (k', v') :: rest, k, v =>
    if k' = k then (k', v) :: rest else (k', v') :: setSession rest k v

def lookupSession : List (String × ConvState) → String → Option ConvState
  | [], _ => none
  | (k', v') :: rest, k => if k' = k then some v' else lookupSession rest k

/-- The whole process state: the per-session map plus the single
email-agent state held by the one `MasterRouterAgent` instance. -/
structure SysState where
  sessions : List (String × ConvState) := []
  emailSt : EmailState := {}
  deriving Repr, DecidableEq

/-- `process_text_message` (`src/api/routes/message_routes.py`): fetch or
create the session, route, apply the grocery `current_agent` persistence
rule, append the two history lines, store the session. -/
def processTextMessage (o : RouteOracles) (sys : SysState) (sid msg : String) :
    Option (SysState × String × String × List MailCall) :=
  let session := (lookupSession sys.sessions sid).getD freshSession
  match route o msg session sys.emailSt with
  | none => none
  | some (an, resp, cs1, est1, tr) =>
    let cs2 :=
      if an = "grocery_agent" then
        { cs1 with currentAgent :=
            if cs1.groceryCtx.stage = "completed" ∨ cs1.groceryCtx.stage = "cancelled"
            then none else some "grocery_agent" }
      else { cs1 with currentAgent := some an }
    let cs3 := { cs2 with history := cs2.history ++
        ["You (" ++ an ++ "): " ++ msg, "Assistant: " ++ resp] }
    some ({ sessions := setSession sys.sessions sid cs3, emailSt := est1 }, an, resp, tr)

/-- A scripted sequence of turns `(session id, message, oracles)`. -/
def runTurns : List (String × String × RouteOracles) → SysState →
    Option (SysState × List (String × String × List MailCall))
  | [], sys => some (sys, [])
  | (sid, msg, o) :: rest, sys =>
    match processTextMessage o sys sid msg with
    | none => none
    | some (sys', an, resp, tr) =>
      match runTurns rest sys' with
      | none => none
      | some (sysF, outs) => some (sysF, (an, resp, tr) :: outs)

/-- Oracles for the cross-session email scenario: the routing LLM always
says `email_agent`, the inbox holds one email, triage labels it
Information/Reply and the draft LLM produces a fixed body. -/
def c10LLM : EmailLLM :=
  { triage := some { priority := some "Low", category := some "Information",
                     action := some "Reply" },
    draft := some "DraftBody42" }

def c10Oracles : RouteOracles :=
  { routeLLM := Except.ok "email_agent", emailLLM := c10LLM,
    mailAdapter := { unread := [c6DemoEmail] } }

/-- Session A lists, selects and drafts; session B just says "yes". -/
def c10TurnsA : List (String × String × RouteOracles) :=
  [("sessionA", "check my emails", c10Oracles),
   ("sessionA", "1", c10Oracles),
   ("sessionA", "draft reply", c10Oracles)]

def c10Turns : List (String × String × RouteOracles) :=
  c10TurnsA ++ [("sessionB", "yes", c10Oracles)]

/-- The conversation state used to exercise routing with an in-progress
grocery confirmation. -/
def c5DemoGroceryCtx : GroceryCtx :=
  { cart := [{ name := "Fresh Tomatoes", price := some "3.99",
               store := "Local Grocery", barcode := "" }],
    stage := "awaiting_yes", awaiting := true, history := [] }

def c5DemoCS : ConvState := { groceryCtx := c5DemoGroceryCtx, currentAgent := none }

end MAS

/-! ## Theorems -/

open MAS

theorem pfLt_iff (a b : MAS.PyFloat) : MAS.pfLt a b = true ↔ a.toRat < b.toRat := by
  have ha : (0 : ℚ) < (10 : ℚ) ^ a.scale := by positivity
  have hb : (0 : ℚ) < (10 : ℚ) ^ b.scale := by positivity
  simp only [MAS.pfLt, MAS.PyFloat.toRat, decide_eq_true_eq]
  rw [div_lt_div_iff₀ ha hb]
  constructor
  · intro h
    exact_mod_cast (by exact_mod_cast h :
      ((a.num * 10 ^ b.scale : ℕ) : ℚ) < ((b.num * 10 ^ a.scale : ℕ) : ℚ))
  · intro h
    exact_mod_cast h


theorem containsAny_append (t : String) (a b : List String) :
    containsAny t (a ++ b) = (containsAny t a || containsAny t b) := by
  simp [containsAny, List.any_append]

theorem understand_confirm (llmItems : List String) (st : GState)
    (h : (understandNode llmItems st).userAction = "confirm") :
    st.awaiting = true ∧ st.stage ≠ "awaiting_final" := by
  unfold understandNode at h
  dsimp only at h
  split_ifs at h <;> simp_all
  rename_i hy hn haf hafn hc
  intro hst
  have h2 := haf hst
  have hc2 := hc.2
  simp [containsAny, List.any_append] at h2 hc2
  rcases hc2 with hc2 | hc2
  · simp [hc2] at h2
  · rcases hc2 with ⟨w, hw, hwc⟩
    have := h2.1 w hw
    simp [hwc] at this

theorem understand_confirm_yes (llmItems : List String) (st : GState)
    (h : (understandNode llmItems st).userAction = "confirm_yes") :
    st.stage = "awaiting_yes" := by
  unfold understandNode at h
  dsimp only at h
  split_ifs at h <;> simp_all

theorem understand_fields (llmItems : List String) (st : GState) :
    (understandNode llmItems st).cart = st.cart ∧
    (understandNode llmItems st).stage = st.stage ∧
    (understandNode llmItems st).awaiting = st.awaiting ∧
    (understandNode llmItems st).history = st.history ∧
    (understandNode llmItems st).orderConfirmed = st.orderConfirmed ∧
    (understandNode llmItems st).resultsByItem = st.resultsByItem := by
  unfold understandNode
  dsimp only
  split_ifs <;> exact ⟨rfl, rfl, rfl, rfl, rfl, rfl⟩

theorem understand_action (llmItems : List String) (st : GState) :
    (understandNode llmItems st).userAction = "confirm_yes" ∨
    (understandNode llmItems st).userAction = "final_confirm" ∨
    (understandNode llmItems st).userAction = "cancel" ∨
    (understandNode llmItems st).userAction = "confirm" ∨
    (understandNode llmItems st).userAction = "search" := by
  unfold understandNode
  dsimp only
  split_ifs <;> simp

theorem search_fields (oracle : String → List Offer) (st : GState) :
    (searchNode oracle st).cart = st.cart ∧
    (searchNode oracle st).stage = st.stage ∧
    (searchNode oracle st).awaiting = st.awaiting ∧
    (searchNode oracle st).history = st.history ∧
    (searchNode oracle st).orderConfirmed = st.orderConfirmed ∧
    (searchNode oracle st).userAction = st.userAction := by
  unfold searchNode
  dsimp only
  split_ifs <;> exact ⟨rfl, rfl, rfl, rfl, rfl, rfl⟩

theorem respond_fields (st : GState) :
    (respondNode st).cart = st.cart ∧
    (respondNode st).stage = st.stage ∧
    (respondNode st).awaiting = st.awaiting := ⟨rfl, rfl, rfl⟩

theorem reason_eval_final (st : GState) (h : st.userAction = "final_confirm") :
    reasonNode st =
      { st with orderConfirmed := true, stage := "completed", awaiting := false, cart := [] } := by
  unfold reasonNode
  rw [h]
  simp

theorem reason_eval_cancel (st : GState) (h : st.userAction = "cancel") :
    reasonNode st = { st with cart := [], stage := "cancelled", awaiting := false } := by
  unfold reasonNode
  rw [h]
  simp

theorem reason_eval_confirm (st : GState) (h : st.userAction = "confirm")
    (ha : st.awaiting = true) :
    reasonNode st = { st with stage := "awaiting_yes" } := by
  unfold reasonNode
  rw [h, ha]
  simp

theorem reason_eval_confirm_yes (st : GState) (h : st.userAction = "confirm_yes") :
    reasonNode st = { st with stage := "awaiting_final" } := by
  unfold reasonNode
  rw [h]
  simp

theorem reason_eval_search (st : GState) (h : st.userAction = "search") :
    reasonNode st =
      (if st.resultsByItem = [] then { st with cart := [] }
       else { st with cart := selectCart st.resultsByItem, awaiting := true, stage := "initial" }) := by
  unfold reasonNode
  rw [h]
  simp

theorem pipelineShape (llmItems : List String) (oracle : String → List Offer) (st : GState) :
    (let r := reasonNode (searchNode oracle (understandNode llmItems st))
    (r.stage = "completed" ∧ r.awaiting = false ∧ r.cart = []) ∨
    (r.stage = "cancelled" ∧ r.awaiting = false ∧ r.cart = []) ∨
    (r.stage = "awaiting_yes" ∧ r.awaiting = st.awaiting ∧ r.cart = st.cart ∧
      st.awaiting = true ∧ st.stage ≠ "awaiting_final") ∨
    (r.stage = "awaiting_final" ∧ r.awaiting = st.awaiting ∧ r.cart = st.cart ∧
      st.stage = "awaiting_yes") ∨
    (r.stage = st.stage ∧ r.awaiting = st.awaiting ∧ r.cart = []) ∨
    (r.stage = "initial" ∧ r.awaiting = true)) := by
  obtain ⟨huc, hus, hua, huh, huo, hur⟩ := understand_fields llmItems st
  obtain ⟨hsc, hss, hsa, hsh, hso, hsu⟩ := search_fields oracle (understandNode llmItems st)
  rcases understand_action llmItems st with h | h | h | h | h
  · have hstage := understand_confirm_yes llmItems st h
    rw [reason_eval_confirm_yes _ (hsu.trans h)]
    refine Or.inr (Or.inr (Or.inr (Or.inl ?_)))
    exact ⟨rfl, hsa.trans hua, hsc.trans huc, hstage⟩
  · rw [reason_eval_final _ (hsu.trans h)]
    exact Or.inl ⟨rfl, rfl, rfl⟩
  · rw [reason_eval_cancel _ (hsu.trans h)]
    exact Or.inr (Or.inl ⟨rfl, rfl, rfl⟩)
  · obtain ⟨hw, hns⟩ := understand_confirm llmItems st h
    rw [reason_eval_confirm _ (hsu.trans h) (hsa.trans (hua.trans hw))]
    refine Or.inr (Or.inr (Or.inl ?_))
    exact ⟨rfl, hsa.trans hua, hsc.trans huc, hw, hns⟩
  · rw [reason_eval_search _ (hsu.trans h)]
    split_ifs
    · exact Or.inr (Or.inr (Or.inr (Or.inr (Or.inl ⟨hss.trans hus, hsa.trans hua, rfl⟩))))
    · exact Or.inr (Or.inr (Or.inr (Or.inr (Or.inr ⟨rfl, rfl⟩))))

theorem groceryPostShape (llmItems : List String) (oracle : String → List Offer)
    (input : String) (ctx : GroceryCtx) :
    (let c := (groceryProcess llmItems oracle input ctx).2
    (c.stage = "completed" ∧ c.awaiting = false ∧ c.cart = []) ∨
    (c.stage = "cancelled" ∧ c.awaiting = false ∧ c.cart = []) ∨
    (c.stage = "awaiting_yes" ∧ c.awaiting = ctx.awaiting ∧ c.cart = ctx.cart ∧
      ctx.awaiting = true ∧ ctx.stage ≠ "awaiting_final") ∨
    (c.stage = "awaiting_final" ∧ c.awaiting = ctx.awaiting ∧ c.cart = ctx.cart ∧
      ctx.stage = "awaiting_yes") ∨
    (c.stage = ctx.stage ∧ c.awaiting = ctx.awaiting ∧ c.cart = []) ∨
    (c.stage = "initial" ∧ c.awaiting = true)) := by
  exact pipelineShape llmItems oracle _

/-- C1 (amended): for every grocery context reachable from the empty
context by `process` calls, a non-empty cart entails that the context is
the cart-built state (`confirmation_stage == 'initial'` with
`awaiting_confirmation == True`) or that the stage is `awaiting_yes` or
`awaiting_final`.  The claim as frozen (cart empty outside
`awaiting_yes`/`awaiting_final`, including right after a cart is built) is
refuted by `claim_C1_counterexample`. -/
theorem claim_C1_amended : ∀ ctx : GroceryCtx, GroceryReachable ctx →
    ctx.cart ≠ [] →
    (ctx.stage = "initial" ∧ ctx.awaiting = true) ∨
    ctx.stage = "awaiting_yes" ∨ ctx.stage = "awaiting_final" := by
  intro ctx h
  induction h with
  | init => intro hc; simp [emptyGroceryCtx] at hc
  | step ctx llm oracle input hprev ih =>
    intro hc
    rcases groceryPostShape llm oracle input ctx with h1 | h1 | h1 | h1 | h1 | h1
    · exact absurd h1.2.2 hc
    · exact absurd h1.2.2 hc
    · exact Or.inr (Or.inl h1.1)
    · exact Or.inr (Or.inr h1.1)
    · exact absurd h1.2.2 hc
    · exact Or.inl ⟨h1.1, h1.2⟩

/-- C1 counterexample: one `process` call on the turn "tomatoes" from the
empty context reaches a context whose cart is non-empty while the stage is
`initial` - not `awaiting_yes` or `awaiting_final` as the claim requires. -/
theorem claim_C1_counterexample :
    GroceryReachable (groceryProcess [] (fun _ => []) "tomatoes" emptyGroceryCtx).2 ∧
    (groceryProcess [] (fun _ => []) "tomatoes" emptyGroceryCtx).2.cart ≠ [] ∧
    (groceryProcess [] (fun _ => []) "tomatoes" emptyGroceryCtx).2.stage = "initial" ∧
    ¬((groceryProcess [] (fun _ => []) "tomatoes" emptyGroceryCtx).2.stage = "awaiting_yes" ∨
      (groceryProcess [] (fun _ => []) "tomatoes" emptyGroceryCtx).2.stage = "awaiting_final") :=
  ⟨GroceryReachable.step _ _ _ _ GroceryReachable.init, by decide, by decide, by decide⟩

/-- C1 witness: the amended invariant applied to the concrete reachable
cart-built context. -/
theorem claim_C1_amended_witness :
    ((groceryProcess [] (fun _ => []) "tomatoes" emptyGroceryCtx).2.stage = "initial" ∧
      (groceryProcess [] (fun _ => []) "tomatoes" emptyGroceryCtx).2.awaiting = true) ∨
    (groceryProcess [] (fun _ => []) "tomatoes" emptyGroceryCtx).2.stage = "awaiting_yes" ∨
    (groceryProcess [] (fun _ => []) "tomatoes" emptyGroceryCtx).2.stage = "awaiting_final" :=
  claim_C1_amended _ (GroceryReachable.step _ _ _ _ GroceryReachable.init) (by decide)

theorem stageRank_le_four (c : GroceryCtx) : stageRank c ≤ 4 := by
  unfold stageRank
  split_ifs <;> omega

theorem stageRank_congr (c d : GroceryCtx) (hs : c.stage = d.stage)
    (ha : c.awaiting = d.awaiting) : stageRank c = stageRank d := by
  unfold stageRank
  rw [hs, ha]

theorem grocery_completed_not_awaiting :
    ∀ ctx : GroceryCtx, GroceryReachable ctx →
      ctx.stage = "completed" → ctx.awaiting = false := by
  intro ctx h
  induction h with
  | init => intro hs; simp [emptyGroceryCtx] at hs
  | step ctx llm oracle input hprev ih =>
    intro hs
    rcases groceryPostShape llm oracle input ctx with h1 | h1 | h1 | h1 | h1 | h1
    · exact h1.2.1
    · exact h1.2.1
    · rw [h1.1] at hs; simp at hs
    · rw [h1.1] at hs; simp at hs
    · rw [h1.2.1, ih (h1.1 ▸ hs)]
    · rw [h1.1] at hs; simp at hs

theorem stageRank_le_two (ctx : GroceryCtx) (hw : ctx.awaiting = true)
    (hns : ctx.stage ≠ "awaiting_final")
    (hJ : ctx.stage = "completed" → ctx.awaiting = false) :
    stageRank ctx ≤ 2 := by
  unfold stageRank
  by_cases h1 : ctx.stage = "initial"
  · simp [h1, hw]
  · by_cases h3 : ctx.stage = "awaiting_yes"
    · simp [h1, h3]
    · by_cases h5 : ctx.stage = "completed"
      · rw [hJ h5] at hw
        exact Bool.noConfusion hw
      · simp [h1, h3, hns, h5]

theorem understand_cancel_token (llmItems : List String) (st : GState)
    (hno : containsAny (pyStrip (pyLower st.userText)) noWords = true)
    (hyes : containsAny (pyStrip (pyLower st.userText)) yesWords = false)
    (hconf : strContains (pyStrip (pyLower st.userText)) "confirm" = false) :
    (understandNode llmItems st).userAction = "cancel" := by
  unfold understandNode
  dsimp only
  split_ifs <;> simp_all [containsAny_append, containsAny]
  all_goals rename_i hlast
  all_goals
    obtain ⟨-, x, hx, hcx⟩ := hlast
    have hfx := hyes x hx
    rw [hfx] at hcx
    exact Bool.noConfusion hcx

/-- C8 (amended): along reachable grocery contexts, every turn either
moves the stage forward along
initial → cart_built → awaiting_yes → awaiting_final → completed, or
cancels (stage `cancelled`), or is a fresh item request that rebuilds the
cart and resets to the cart-built state; and from any stage, a turn
containing a cancel-type token but no yes-type token and no "confirm"
yields stage `cancelled` with an empty cart.  The frozen claim (backward
moves only via cancellation; any cancel-token turn cancels) is refuted by
`claim_C8_counterexample`. -/
theorem claim_C8_amended :
    (∀ ctx : GroceryCtx, GroceryReachable ctx →
      ∀ (llmItems : List String) (oracle : String → List Offer) (input : String),
        stageRank ctx ≤ stageRank (groceryProcess llmItems oracle input ctx).2 ∨
        (groceryProcess llmItems oracle input ctx).2.stage = "cancelled" ∨
        ((groceryProcess llmItems oracle input ctx).2.stage = "initial" ∧
         (groceryProcess llmItems oracle input ctx).2.awaiting = true)) ∧
    (∀ (ctx : GroceryCtx) (llmItems : List String) (oracle : String → List Offer)
        (input : String),
      containsAny (pyStrip (pyLower input)) noWords = true →
      containsAny (pyStrip (pyLower input)) yesWords = false →
      strContains (pyStrip (pyLower input)) "confirm" = false →
      (groceryProcess llmItems oracle input ctx).2.stage = "cancelled" ∧
      (groceryProcess llmItems oracle input ctx).2.cart = []) := by
  constructor
  · intro ctx hreach llmItems oracle input
    have hJ := grocery_completed_not_awaiting ctx hreach
    rcases groceryPostShape llmItems oracle input ctx with h1 | h1 | h1 | h1 | h1 | h1
    · refine Or.inl ?_
      have h4 : stageRank (groceryProcess llmItems oracle input ctx).2 = 4 := by
        unfold stageRank
        rw [h1.1]
        simp
      rw [h4]
      exact stageRank_le_four ctx
    · exact Or.inr (Or.inl h1.1)
    · refine Or.inl ?_
      have h2 : stageRank (groceryProcess llmItems oracle input ctx).2 = 2 := by
        unfold stageRank
        rw [h1.1]
        simp
      rw [h2]
      obtain ⟨-, -, -, hw, hns⟩ := h1
      exact stageRank_le_two ctx hw hns hJ
    · refine Or.inl ?_
      have h3 : stageRank (groceryProcess llmItems oracle input ctx).2 = 3 := by
        unfold stageRank
        rw [h1.1]
        simp
      rw [h3]
      obtain ⟨-, -, -, hay⟩ := h1
      unfold stageRank
      rw [hay]
      simp
    · exact Or.inl (le_of_eq (stageRank_congr ctx _ h1.1.symm h1.2.1.symm))
    · exact Or.inr (Or.inr ⟨h1.1, h1.2⟩)
  · intro ctx llmItems oracle input hno hyes hconf
    have hact : (understandNode llmItems (initGState input ctx)).userAction = "cancel" :=
      understand_cancel_token llmItems _ hno hyes hconf
    obtain ⟨hsc, hss, hsa, hsh, hso, hsu⟩ :=
      search_fields oracle (understandNode llmItems (initGState input ctx))
    have hre := reason_eval_cancel _ (hsu.trans hact)
    have hstage : (groceryProcess llmItems oracle input ctx).2.stage =
        (reasonNode (searchNode oracle
          (understandNode llmItems (initGState input ctx)))).stage := rfl
    have hcart : (groceryProcess llmItems oracle input ctx).2.cart =
        (reasonNode (searchNode oracle
          (understandNode llmItems (initGState input ctx)))).cart := rfl
    rw [hstage, hcart, hre]
    exact ⟨rfl, rfl⟩

/-- C8 counterexample: from `awaiting_yes`, the fresh item request
"apples" (which contains no cancel token) moves the stage backwards to
`initial` without cancelling; and the turn "okay, cancel" (which contains
a cancel token) from the same non-terminal stage yields `awaiting_final`
with a non-empty cart, because yes-words are checked first. -/
theorem claim_C8_counterexample :
    GroceryReachable gDemoCtx2 ∧
    gDemoCtx2.stage = "awaiting_yes" ∧
    containsAny (pyStrip (pyLower "apples")) noWords = false ∧
    gDemoCtx3.stage = "initial" ∧ gDemoCtx3.stage ≠ "cancelled" ∧
    stageRank gDemoCtx3 < stageRank gDemoCtx2 ∧
    strContains (pyStrip (pyLower "okay, cancel")) "cancel" = true ∧
    gDemoCtx2b.stage = "awaiting_final" ∧ gDemoCtx2b.cart ≠ [] :=
  ⟨GroceryReachable.step _ _ _ _ (GroceryReachable.step _ _ _ _ GroceryReachable.init),
   by decide, by decide, by decide, by decide, by decide, by decide, by decide, by decide⟩

/-- C8 witness: the amended transition property applied to the empty
context with a fresh-item turn, and the cancel rule applied to the bare
turn "cancel". -/
theorem claim_C8_amended_witness :
    (stageRank emptyGroceryCtx ≤
        stageRank (groceryProcess [] (fun _ => []) "hello there" emptyGroceryCtx).2 ∨
      (groceryProcess [] (fun _ => []) "hello there" emptyGroceryCtx).2.stage = "cancelled" ∨
      ((groceryProcess [] (fun _ => []) "hello there" emptyGroceryCtx).2.stage = "initial" ∧
       (groceryProcess [] (fun _ => []) "hello there" emptyGroceryCtx).2.awaiting = true)) ∧
    ((groceryProcess [] (fun _ => []) "cancel" emptyGroceryCtx).2.stage = "cancelled" ∧
     (groceryProcess [] (fun _ => []) "cancel" emptyGroceryCtx).2.cart = []) :=
  ⟨claim_C8_amended.1 emptyGroceryCtx GroceryReachable.init [] (fun _ => []) "hello there",
   claim_C8_amended.2 emptyGroceryCtx [] (fun _ => []) "cancel"
     (by decide) (by decide) (by decide)⟩

theorem minByKeyFirst_mem (key : Offer → PyFloat) (x : Offer) (xs : List Offer) :
    minByKeyFirst key x xs ∈ x :: xs := by
  induction xs generalizing x with
  | nil => simp [minByKeyFirst]
  | cons r rs ih =>
    have hrw : minByKeyFirst key x (r :: rs) =
        minByKeyFirst key (if pfLt (key r) (key x) then r else x) rs := rfl
    rw [hrw]
    rcases List.mem_cons.mp (ih (if pfLt (key r) (key x) then r else x)) with h | h
    · rw [h]
      split_ifs
      · exact List.mem_cons_of_mem _ (List.mem_cons_self _ _)
      · exact List.mem_cons_self _ _
    · exact List.mem_cons_of_mem _ (List.mem_cons_of_mem _ h)

theorem minByKeyFirst_le (key : Offer → PyFloat) (x : Offer) (xs : List Offer) :
    ∀ r ∈ x :: xs, (key (minByKeyFirst key x xs)).toRat ≤ (key r).toRat := by
  induction xs generalizing x with
  | nil =>
    intro r hr
    simp at hr
    subst hr
    simp [minByKeyFirst]
  | cons a as ih =>
    intro r hr
    have hrw : minByKeyFirst key x (a :: as) =
        minByKeyFirst key (if pfLt (key a) (key x) then a else x) as := rfl
    rw [hrw]
    have hyx : (key (if pfLt (key a) (key x) then a else x)).toRat ≤ (key x).toRat := by
      split_ifs with h
      · exact le_of_lt ((pfLt_iff _ _).mp h)
      · exact le_refl _
    have hya : (key (if pfLt (key a) (key x) then a else x)).toRat ≤ (key a).toRat := by
      split_ifs with h
      · exact le_refl _
      · exact le_of_not_lt (fun hlt => h ((pfLt_iff _ _).mpr hlt))
    have hmin := ih (if pfLt (key a) (key x) then a else x)
    have hminy := hmin _ (List.mem_cons_self _ _)
    rcases List.mem_cons.mp hr with rfl | hr2
    · exact le_trans hminy hyx
    · rcases List.mem_cons.mp hr2 with rfl | hr3
      · exact le_trans hminy hya
      · exact hmin r (List.mem_cons_of_mem _ hr3)

/-- C2: in `_reason_node`'s cart selection, an item with an empty
candidate list contributes no cart entry; a non-empty candidate list
contributes exactly one entry, which is the first candidate when no
candidate has a present, non-"N/A" price, and otherwise a valid-priced
candidate of minimum numeric price among the valid-priced ones. -/
theorem claim_C2 (name : String) (rs : List Offer) (rest : List (String × List Offer))
    (hparse : ∀ r ∈ rs.filter offerPriceValid,
      (parseDecimal (dropChar '$' (r.price.getD ""))).isSome = true) :
    (rs = [] → selectCart ((name, rs) :: rest) = selectCart rest) ∧
    (rs ≠ [] → ∃ chosen, selectCart ((name, rs) :: rest) = chosen :: selectCart rest ∧
      (rs.filter offerPriceValid = [] → some chosen = rs.head?) ∧
      (rs.filter offerPriceValid ≠ [] →
        chosen ∈ rs.filter offerPriceValid ∧
        ∀ r ∈ rs.filter offerPriceValid,
          (priceKey chosen).toRat ≤ (priceKey r).toRat)) := by
  constructor
  · intro h
    subst h
    simp [selectCart, pickOffer]
  · intro hne
    match rs, hne with
    | r0 :: rs', _ =>
      cases hv : (r0 :: rs').filter offerPriceValid with
      | nil =>
        refine ⟨r0, ?_, ?_, ?_⟩
        · simp [selectCart, pickOffer, hv]
        · intro _
          simp
        · intro hcon
          exact absurd rfl hcon
      | cons v vs =>
        refine ⟨minByKeyFirst priceKey v vs, ?_, ?_, ?_⟩
        · simp [selectCart, pickOffer, hv]
        · intro hcon
          exact absurd hcon (by simp)
        · intro _
          exact ⟨minByKeyFirst_mem priceKey v vs,
            fun r hrmem => minByKeyFirst_le priceKey v vs r hrmem⟩

/-- C3 (amended): a turn that the follow-up heuristic classifies as a
follow-up bypasses the router LLM and runs `_deepdive_agent`, leaving the
context unchanged; with a non-empty cached list for `last_search_type`,
the item rendered in detail is the one selected by the first matching
entry of the `number_words` scan order (substring containment), when that
index is in range; an out-of-range index or no matching token yields the
numbered overview of up to 5 cached items, and no input crashes.  The
frozen claim's reading (ordinal K always maps to item K-1) is refuted by
`claim_C3_counterexample`. -/
theorem claim_C3_amended (ctx : NewsCtx) (input : String) (routerLLM : Option String)
    (serper : String → String → Option (List NewsItem))
    (hfu : checkForFollowUp input ctx = true) :
    newsProcess routerLLM serper input ctx = some (deepdiveAgent ctx input, ctx) ∧
    ((storedItemsFor ctx).getD [] ≠ [] →
      (∀ idx, parseItemIndex (pyLower input) = some idx →
        idx < ((storedItemsFor ctx).getD []).length →
        deepdiveAgent ctx input =
          renderDetail ctx.lastSearchType
            (((storedItemsFor ctx).getD []).getD idx defaultNewsItem) idx) ∧
      (∀ idx, parseItemIndex (pyLower input) = some idx →
        ((storedItemsFor ctx).getD []).length ≤ idx →
        deepdiveAgent ctx input = renderOverview ctx ((storedItemsFor ctx).getD [])) ∧
      (parseItemIndex (pyLower input) = none →
        deepdiveAgent ctx input = renderOverview ctx ((storedItemsFor ctx).getD []))) := by
  constructor
  · unfold newsProcess
    rw [hfu]
    simp
  · intro hne
    refine ⟨?_, ?_, ?_⟩
    · intro idx hidx hlt
      unfold deepdiveAgent
      dsimp only
      rw [hidx]
      simp [hne, hlt]
    · intro idx hidx hge
      unfold deepdiveAgent
      dsimp only
      rw [hidx]
      simp [hne]
      intro h
      omega
    · intro hidx
      unfold deepdiveAgent
      dsimp only
      rw [hidx]
      simp [hne]

/-- C3 counterexample: "tell me about the second one" names ordinal 2,
but the scan order tries "one" before "second", so the resolver renders
the detail of item index 0, not index 1. -/
theorem claim_C3_counterexample :
    checkForFollowUp "tell me about the second one" c3DemoCtx = true ∧
    parseItemIndex (pyLower "tell me about the second one") = some 0 ∧
    newsProcess (some "news_agent") (fun _ _ => none) "tell me about the second one" c3DemoCtx =
      some (renderDetail "news" c3DemoItem1 0, c3DemoCtx) ∧
    renderDetail "news" c3DemoItem1 0 ≠ renderDetail "news" c3DemoItem2 1 :=
  ⟨by decide, by decide, by decide, by decide⟩

/-- C3 witness: the amended resolver contract applied to the two-article
context and the turn "tell me more about the first one". -/
theorem claim_C3_amended_witness :
    newsProcess (some "news_agent") (fun _ _ => none) "tell me more about the first one" c3DemoCtx =
      some (deepdiveAgent c3DemoCtx "tell me more about the first one", c3DemoCtx) ∧
    ((storedItemsFor c3DemoCtx).getD [] ≠ [] →
      (∀ idx, parseItemIndex (pyLower "tell me more about the first one") = some idx →
        idx < ((storedItemsFor c3DemoCtx).getD []).length →
        deepdiveAgent c3DemoCtx "tell me more about the first one" =
          renderDetail c3DemoCtx.lastSearchType
            (((storedItemsFor c3DemoCtx).getD []).getD idx defaultNewsItem) idx) ∧
      (∀ idx, parseItemIndex (pyLower "tell me more about the first one") = some idx →
        ((storedItemsFor c3DemoCtx).getD []).length ≤ idx →
        deepdiveAgent c3DemoCtx "tell me more about the first one" =
          renderOverview c3DemoCtx ((storedItemsFor c3DemoCtx).getD [])) ∧
      (parseItemIndex (pyLower "tell me more about the first one") = none →
        deepdiveAgent c3DemoCtx "tell me more about the first one" =
          renderOverview c3DemoCtx ((storedItemsFor c3DemoCtx).getD []))) :=
  claim_C3_amended c3DemoCtx "tell me more about the first one" (some "news_agent")
    (fun _ _ => none) (by decide)

/-- C6 counterexample: drafting a reply to a meeting-request email leaves
BOTH a pending draft and a pending meeting proposal, and a subsequent
positional selection turn clears neither. -/
theorem claim_C6_counterexample :
    draftTruthy c6DemoState1.draftReady = true ∧
    c6DemoState1.meetingReady.isSome = true ∧
    c6DemoState2.draftReady = c6DemoState1.draftReady ∧
    c6DemoState2.meetingReady = c6DemoState1.meetingReady ∧
    c6DemoState2.currentEmail = some c6DemoEmail :=
  ⟨by decide, by decide, by decide, by decide, by decide⟩

/-- C6 (amended): a draft turn replaces the pending actions with the new
draft and, exactly when the analyzed email contains a meeting request,
also a pending meeting proposal (so both can be pending at once); a
positional selection turn leaves the pending actions unchanged; a bare
"no" clears both. -/
theorem claim_C6_amended :
    (∀ (llm : EmailLLM) (adapter : MailAdapter) (st : EmailState) (e : Email),
      st.currentEmail = some e →
      ∃ resp calls, emailProcess llm adapter "draft reply" st =
        some (resp,
          { st with lastState := some (runEmailGraph llm adapter e).1,
                    draftReady := some (runEmailGraph llm adapter e).1.draftResponse,
                    meetingReady :=
                      if hasMeetingB (runEmailGraph llm adapter e).1.meetingDetails then
                        (runEmailGraph llm adapter e).1.meetingDetails
                      else none }, calls)) ∧
    (∀ (llm : EmailLLM) (adapter : MailAdapter) (st : EmailState) (input : String) (n : Nat),
      pyStrip (pyLower input) ∉ (["yes", "y", "confirm", "send", "send it"] : List String) →
      pyStrip (pyLower input) ∉ (["no", "n", "cancel", "skip"] : List String) →
      (containsAny (pyStrip (pyLower input)) ["check", "show", "list"] &&
        containsAny (pyStrip (pyLower input)) ["email", "inbox", "unread"]) = false →
      findIntToken input = some n →
      containsAny (pyStrip (pyLower input)) ["reply", "draft", "schedule"] = false →
      ∃ resp st' calls, emailProcess llm adapter input st = some (resp, st', calls) ∧
        st'.draftReady = st.draftReady ∧ st'.meetingReady = st.meetingReady) ∧
    (∀ (llm : EmailLLM) (adapter : MailAdapter) (st : EmailState),
      emailProcess llm adapter "no" st =
        some ("❌ Cancelled. What would you like to do next?",
          { st with draftReady := none, meetingReady := none }, [])) := by
  refine ⟨?_, ?_, ?_⟩
  · intro llm adapter st e he
    unfold emailProcess
    dsimp only
    rw [if_neg (by decide), if_neg (by decide), if_neg (by decide),
      show findIntToken "draft reply" = none from by decide,
      show containsAny (pyStrip (pyLower "draft reply")) ["reply", "draft", "schedule"] = true
        from by decide]
    dsimp only
    rw [if_neg (by decide), if_neg (by decide), if_pos (by decide), he]
    exact ⟨_, _, rfl⟩
  · intro llm adapter st input n h1 h2 h3 h4 h5
    unfold emailProcess
    dsimp only
    rw [if_neg h1, if_neg h2, if_neg (by simp [h3]), h4, h5]
    dsimp only
    split_ifs <;> exact ⟨_, _, _, rfl, rfl, rfl⟩
  · intro llm adapter st
    unfold emailProcess
    dsimp only
    rw [if_neg (by decide), if_pos (by decide)]

/-- C6 witness: the three amended behaviours on the concrete
meeting-request scenario. -/
theorem claim_C6_amended_witness :
    (∃ resp calls, emailProcess c6DemoLLM {} "draft reply" c6DemoState0 =
      some (resp,
        { c6DemoState0 with
            lastState := some (runEmailGraph c6DemoLLM {} c6DemoEmail).1,
            draftReady := some (runEmailGraph c6DemoLLM {} c6DemoEmail).1.draftResponse,
            meetingReady :=
              if hasMeetingB (runEmailGraph c6DemoLLM {} c6DemoEmail).1.meetingDetails then
                (runEmailGraph c6DemoLLM {} c6DemoEmail).1.meetingDetails
              else none }, calls)) ∧
    (∃ resp st' calls, emailProcess c6DemoLLM {} "1" c6DemoState1 =
        some (resp, st', calls) ∧
      st'.draftReady = c6DemoState1.draftReady ∧
      st'.meetingReady = c6DemoState1.meetingReady) ∧
    emailProcess c6DemoLLM {} "no" c6DemoState1 =
      some ("❌ Cancelled. What would you like to do next?",
        { c6DemoState1 with draftReady := none, meetingReady := none }, []) :=
  ⟨claim_C6_amended.1 c6DemoLLM {} c6DemoState0 c6DemoEmail (by decide),
   claim_C6_amended.2.1 c6DemoLLM {} c6DemoState1 "1" 1
     (by decide) (by decide) (by decide) (by decide) (by decide),
   claim_C6_amended.2.2 c6DemoLLM {} c6DemoState1⟩

/-- C7: a bare "yes" with a non-empty pending draft and a selected email
makes exactly one `send` adapter call whose body is exactly the stored
draft, after which the pending draft is cleared; a "yes" with no truthy
draft and no pending meeting makes no adapter call and returns the
nothing-to-confirm message. -/
theorem claim_C7 :
    (∀ (llm : EmailLLM) (adapter : MailAdapter) (st : EmailState) (e : Email) (d : String),
      st.draftReady = some d → d ≠ "" → st.currentEmail = some e →
      ∃ resp st' calls, emailProcess llm adapter "yes" st = some (resp, st', calls) ∧
        calls.filter MailCall.isSend =
          [MailCall.send e.sender e.subject d (some e.threadId)] ∧
        st'.draftReady = none) ∧
    (∀ (llm : EmailLLM) (adapter : MailAdapter) (st : EmailState),
      draftTruthy st.draftReady = false → st.meetingReady = none →
      emailProcess llm adapter "yes" st =
        some ("❌ Nothing to confirm. Please select an email first or request a draft.",
          st, [])) := by
  constructor
  · intro llm adapter st e d hd hne he
    unfold emailProcess
    dsimp only
    rw [if_pos (by decide), if_pos (by rw [hd]; simpa [draftTruthy] using hne), he]
    dsimp only
    rw [hd]
    split_ifs
    · exact ⟨_, _, _, rfl, by simp [MailCall.isSend], rfl⟩
    · exact ⟨_, _, _, rfl, by simp [MailCall.isSend], rfl⟩
  · intro llm adapter st hfalse hm
    unfold emailProcess
    dsimp only
    rw [if_pos (by decide), if_neg (by simp [hfalse]), hm]

/-- C7 witness: the send round-trip on the concrete drafted state and
the nothing-to-confirm reply on the empty state. -/
theorem claim_C7_witness :
    (∃ resp st' calls, emailProcess c6DemoLLM {} "yes" c6DemoState1 =
        some (resp, st', calls) ∧
      calls.filter MailCall.isSend =
        [MailCall.send c6DemoEmail.sender c6DemoEmail.subject
          "Sounds good, see you then." (some c6DemoEmail.threadId)] ∧
      st'.draftReady = none) ∧
    emailProcess c6DemoLLM {} "yes" emptyEmailState =
      some ("❌ Nothing to confirm. Please select an email first or request a draft.",
        emptyEmailState, []) :=
  ⟨claim_C7.1 c6DemoLLM {} c6DemoState1 c6DemoEmail "Sounds good, see you then."
     (by decide) (by decide) (by decide),
   claim_C7.2 c6DemoLLM {} emptyEmailState (by decide) (by decide)⟩

/-- C9 (amended): `get_unread_emails` re-authenticates and retries on
EVERY credential-expiry failure, with no bound: `k` consecutive 401
outcomes are absorbed with `k` re-authentication calls and the result of
whatever the next outcome is; a 401 is never surfaced to the caller.  The
frozen claim (at most one retry, then surface) is refuted by
`claim_C9_counterexample`. -/
theorem claim_C9_amended : ∀ (k : Nat) (rest : List FetchOutcome),
    getUnreadEmailsRetry (List.replicate k FetchOutcome.authExpired ++ rest) =
      ((getUnreadEmailsRetry rest).1, (getUnreadEmailsRetry rest).2 + k) := by
  intro k rest
  induction k with
  | zero => simp
  | succ n ih =>
    have hstep : ∀ l, getUnreadEmailsRetry (FetchOutcome.authExpired :: l) =
        ((getUnreadEmailsRetry l).1, (getUnreadEmailsRetry l).2 + 1) := fun l => rfl
    rw [List.replicate_succ, List.cons_append, hstep, ih]
    dsimp only
    rw [Nat.add_assoc]

/-- C9 counterexample: when the first retry fails with 401 again, the
adapter re-authenticates a second time (two `authenticate()` calls) and
returns the third attempt's emails instead of surfacing the failure. -/
theorem claim_C9_counterexample :
    getUnreadEmailsRetry [FetchOutcome.authExpired, FetchOutcome.authExpired,
      FetchOutcome.ok [c6DemoEmail]] = (some [c6DemoEmail], 2) := by decide

/-- C2 witness: the selection rule applied to a concrete candidate list
with a cheap offer, a dear offer and an unpriced offer. -/
theorem claim_C2_witness :
    (c2DemoOffers = [] → selectCart [("milk", c2DemoOffers)] = selectCart []) ∧
    (c2DemoOffers ≠ [] → ∃ chosen,
      selectCart [("milk", c2DemoOffers)] = chosen :: selectCart [] ∧
      (c2DemoOffers.filter offerPriceValid = [] → some chosen = c2DemoOffers.head?) ∧
      (c2DemoOffers.filter offerPriceValid ≠ [] →
        chosen ∈ c2DemoOffers.filter offerPriceValid ∧
        ∀ r ∈ c2DemoOffers.filter offerPriceValid,
          (priceKey chosen).toRat ≤ (priceKey r).toRat)) :=
  claim_C2 "milk" c2DemoOffers [] (by decide)

set_option maxRecDepth 4000 in
/-- C4 counterexample: an LLM routing output naming no agent makes
`route` return the label "general" with a fixed help message - not a
keyword-heuristic domain, not the search domain, and neither a valid
domain label nor the routing-error signal. -/
theorem claim_C4_counterexample :
    ((route { routeLLM := Except.ok "banana" } "hello" {} {}).map (fun r => r.1)) =
      some "general" ∧
    ((route { routeLLM := Except.ok "banana" } "hello" {} {}).map (fun r => r.2.1)) =
      some generalHelp ∧
    ("general" : String) ∉ ["news_agent", "weather_agent", "email_agent", "grocery_agent"] ∧
    ("general" : String) ≠ "error" :=
  ⟨by decide, by decide, by decide, by decide⟩

/-- C4 (amended): when the grocery stickiness does not apply, a routing
LLM exception makes `route` return the explicit ("error", "Error: " ++ raw
text) signal with the state unchanged, and an LLM output containing none
of the four agent names makes it return the "general" label with the fixed
help message; in both cases no exception propagates.  `route` has no
keyword fallback (that heuristic lives inside the news agent's own
router). -/
theorem claim_C4_amended :
    (∀ (o : RouteOracles) (input : String) (cs : ConvState) (est : EmailState) (e : String),
      grocerySticky input cs = false → o.routeLLM = Except.error e →
      route o input cs est = some ("error", "Error: " ++ e, cs, est, [])) ∧
    (∀ (o : RouteOracles) (input : String) (cs : ConvState) (est : EmailState)
        (resp : String),
      grocerySticky input cs = false → o.routeLLM = Except.ok resp →
      cleanAgentName resp ∉
        (["news_agent", "weather_agent", "email_agent", "grocery_agent"] : List String) →
      route o input cs est = some ("general", generalHelp, cs, est, [])) := by
  constructor
  · intro o input cs est e hns hllm
    unfold route
    dsimp only
    rw [if_neg (by simp [hns]), hllm]
    dsimp only [Except.map]
  · intro o input cs est resp hns hllm hmem
    have h1 : cleanAgentName resp ≠ "news_agent" := fun h => hmem (by simp [h])
    have h2 : cleanAgentName resp ≠ "weather_agent" := fun h => hmem (by simp [h])
    have h3 : cleanAgentName resp ≠ "email_agent" := fun h => hmem (by simp [h])
    have h4 : cleanAgentName resp ≠ "grocery_agent" := fun h => hmem (by simp [h])
    unfold route
    dsimp only
    rw [if_neg (by simp [hns]), hllm]
    dsimp only [Except.map]
    rw [if_neg h1, if_neg h2, if_neg h3, if_neg h4]

/-- C4 witness: the two fallback behaviours at a concrete failing and a
concrete unparseable routing call. -/
theorem claim_C4_amended_witness :
    route { routeLLM := Except.error "boom" } "hello" {} {} =
      some ("error", "Error: " ++ "boom", {}, {}, []) ∧
    route { routeLLM := Except.ok "banana" } "hello" {} {} =
      some ("general", generalHelp, {}, {}, []) :=
  ⟨claim_C4_amended.1 { routeLLM := Except.error "boom" } "hello" {} {} "boom"
     (by decide) rfl,
   claim_C4_amended.2 { routeLLM := Except.ok "banana" } "hello" {} {} "banana"
     (by decide) rfl (by decide)⟩

/-- C5 counterexample: with `current_agent` unset, a bare "yes" while the
grocery context sits at `awaiting_yes` is routed by the LLM (here to the
news agent), not to the grocery agent, refuting the claim's unconditional
quantification over session states. -/
theorem claim_C5_counterexample :
    c5DemoCS.groceryCtx.stage ≠ "initial" ∧
    c5DemoCS.groceryCtx.awaiting = true ∧
    pyStrip (pyLower "yes") ∈ bareTokens ∧
    ((route { routeLLM := Except.ok "news_agent" } "yes" c5DemoCS {}).map (fun r => r.1)) =
      some "news_agent" ∧
    ((route { routeLLM := Except.ok "news_agent" } "yes" c5DemoCS {}).map (fun r => r.1)) ≠
      some "grocery_agent" :=
  ⟨by decide, by decide, by decide, by decide, by decide⟩

/-- C5 (amended): when the session's `current_agent` is `grocery_agent`
and the grocery context has an in-progress confirmation
(`awaiting_confirmation` or a stage other than `initial`) or the turn is a
bare confirmation/cancellation token, `route` selects the grocery agent. -/
theorem claim_C5_amended :
    ∀ (o : RouteOracles) (input : String) (cs : ConvState) (est : EmailState),
      cs.currentAgent = some "grocery_agent" →
      (cs.groceryCtx.awaiting = true ∨ cs.groceryCtx.stage ≠ "initial" ∨
        pyStrip (pyLower input) ∈ bareTokens) →
      ∃ resp cs' tr, route o input cs est =
        some ("grocery_agent", resp, cs', est, tr) := by
  intro o input cs est hca hcond
  have hsticky : grocerySticky input cs = true := by
    unfold grocerySticky
    rw [hca]
    rcases hcond with h | h | h
    · simp [h]
    · simp [h]
    · simp [h]
  unfold route
  dsimp only
  rw [if_pos hsticky]
  exact ⟨_, _, _, rfl⟩

/-- C5 witness: the amended stickiness applied to a session whose
current agent is the grocery agent. -/
theorem claim_C5_amended_witness :
    ∃ resp cs' tr,
      route { routeLLM := Except.ok "news_agent" } "yes"
          { c5DemoCS with currentAgent := some "grocery_agent" } {} =
        some ("grocery_agent", resp, cs', {}, tr) :=
  claim_C5_amended { routeLLM := Except.ok "news_agent" } "yes"
    { c5DemoCS with currentAgent := some "grocery_agent" } {}
    (by decide) (Or.inl (by decide))

/-- C10: the email agent's conversational state lives on the one agent
instance, not in the per-session store: after session A lists, selects and
drafts (session B not even existing yet), a bare "yes" from session B
sends exactly the draft session A created, and the shared pending draft is
cleared for both sessions - while session A's grocery context remains its
own per-session value. -/
theorem claim_C10 :
    ("sessionA" : String) ≠ "sessionB" ∧
    ((runTurns c10TurnsA {}).map (fun r => r.1.emailSt.draftReady)) =
      some (some "DraftBody42") ∧
    ((runTurns c10TurnsA {}).map (fun r => lookupSession r.1.sessions "sessionB")) =
      some none ∧
    ((runTurns c10Turns {}).map (fun r =>
      (r.2.getD 3 ("", "", [])).2.2.filter MailCall.isSend)) =
      some [MailCall.send "alice@example.com" "Project sync" "DraftBody42" (some "t1")] ∧
    ((runTurns c10Turns {}).map (fun r => r.1.emailSt.draftReady)) = some none ∧
    ((runTurns c10Turns {}).map (fun r =>
      (lookupSession r.1.sessions "sessionA").map ConvState.groceryCtx)) =
      some (some emptyGroceryCtx) :=
  ⟨by decide, by decide, by decide, by decide, by decide, by decide⟩
